import Mathlib

/-!
Verification development for the UGC proof bot (`src/main.py`).

The bot drives a per-user conversational workflow: a participant submits a
social-media post URL, a single-use redemption code, a caption, a proof photo
and a tier claim; the bot deduplicates submissions on a (platform, URL
fingerprint) key, validates tier T1 immediately and tier T2 after a metrics
proof photo, and records rewards in an idempotent ledger keyed on
(submission id, tier).

Strings are modelled as `List Char`.  Python's `str.strip()` is modelled over
the ASCII whitespace characters, `str.lower()` / `str.upper()` over the ASCII
letters.  The cryptographic digests `sha256_str` / `sha256_bytes` are modelled
as the identity embedding of the pre-image (a deterministic, injective
content-addressing function); no claim depends on properties of the digest
beyond determinism.  MongoDB collections are modelled as lists of records,
`datetime` instants as integers (seconds), and `ObjectId` values as natural
numbers whose 24-character hexadecimal string form is produced by `encodeOid`
and parsed by `oidParse` (the model of `_oid`, whose underlying
`bson.ObjectId` constructor raises `InvalidId` on malformed input, modelled
as `Except.error`).
-/

set_option autoImplicit false

abbrev Str := List Char

/-- Coerce a Lean string literal to the `List Char` representation. -/
def str (s : String) : Str := s.data

/-- Whitespace recognised by the model of Python's `str.strip()`
(the ASCII subset of Python's whitespace class). -/
def isPySpace (c : Char) : Bool :=
  c = ' ' || c = '\t' || c = '\n' || c = '\r' || c = '\x0b' || c = '\x0c'

/-- Model of Python `str.strip()`: drop leading and trailing whitespace. -/
def pyStrip (s : Str) : Str :=
  ((s.dropWhile isPySpace).reverse.dropWhile isPySpace).reverse

/-- ASCII lower-casing of one character (model of Python `str.lower()`
per character). -/
def lowerChar (c : Char) : Char :=
  if 65 ≤ c.toNat ∧ c.toNat ≤ 90 then Char.ofNat (c.toNat + 32) else c

/-- ASCII upper-casing of one character (model of Python `str.upper()`
per character). -/
def upperChar (c : Char) : Char :=
  if 97 ≤ c.toNat ∧ c.toNat ≤ 122 then Char.ofNat (c.toNat - 32) else c

/-- Model of Python `str.lower()`. -/
def pyLower (s : Str) : Str := s.map lowerChar

/-- Model of Python `str.upper()`. -/
def pyUpper (s : Str) : Str := s.map upperChar

/-- Helper for the model of `re.sub(r"#.*$", "", url)`: given the characters
following a `#`, decide whether the pattern `#.*$` matches from that `#`
(without `re.MULTILINE`, `.` does not match a newline and `$` matches at the
end of the string or just before a single final newline).  Returns `some
leftover` (the characters surviving after the match) when it matches, `none`
when an interior newline prevents a match. -/
def fragRem : Str → Option Str
  | [] => some []
  | [c] => if c = '\n' then some ['\n'] else some []
  | c :: rest => if c = '\n' then none else fragRem rest

/-- Model of `re.sub(r"#.*$", "", url)`: scan left to right; at the first `#`
from which `#.*$` matches, delete the matched span (everything up to the end,
or up to a single final newline).  At most one match can occur because the
leftover is empty or a final newline. -/
def pyFragSub : Str → Str
  | [] => []
  | c :: rest =>
    if c = '#' then
      match fragRem rest with
      | some leftover => leftover
      | none => c :: pyFragSub rest
    else c :: pyFragSub rest

/-- Model of `normalize_url` (src/main.py:61-64): strip surrounding
whitespace, then remove the `#.*$` fragment. -/
def normalize_url (url : Str) : Str := pyFragSub (pyStrip url)

/-- Model of `sha256_str` (src/main.py:71-72).  The digest is modelled as the
identity embedding of the pre-image: deterministic and injective, which is
all the claims rely on. -/
def sha256_str (s : Str) : Str := s

/-- Model of `sha256_bytes` (src/main.py:67-68); photo contents are modelled
as `Str`, and the digest as the identity embedding of the content. -/
def sha256_bytes (b : Str) : Str := b

/-- The post fingerprint computed in `submit_got_url` (src/main.py:176):
`sha256_str(f"{platform}:{url.lower()}")`. -/
def post_hash_of (platform url : Str) : Str :=
  sha256_str (platform ++ str ":" ++ pyLower url)

/-- URL fingerprinting as a function of (platform, raw URL): the composition
of `normalize_url` (applied in `submit_got_url`, src/main.py:169) with the
fingerprint construction of src/main.py:176. -/
def fingerprintURL (platform raw : Str) : Str :=
  post_hash_of platform (normalize_url raw)

/-- Decide whether `needle` occurs as a contiguous substring of `hay`
(model of Python's `in` on strings). -/
def strHasSub (needle hay : Str) : Bool :=
  match hay with
  | [] => needle.isEmpty
  | _ :: rest => hay.take needle.length = needle || strHasSub needle rest

/-- Model of `detect_platform` (src/main.py:75-83). -/
def detect_platform (url : Str) : Option Str :=
  let u := pyLower url
  if strHasSub (str "tiktok.com") u then some (str "tt")
  else if strHasSub (str "instagram.com") u then some (str "ig")
  else if strHasSub (str "facebook.com") u || strHasSub (str "fb.watch") u then
    some (str "fb")
  else none

/-- Value of one hexadecimal digit, `none` for a non-hex character. -/
def hexVal (c : Char) : Option Nat :=
  if 48 ≤ c.toNat ∧ c.toNat ≤ 57 then some (c.toNat - 48)
  else if 97 ≤ c.toNat ∧ c.toNat ≤ 102 then some (c.toNat - 87)
  else if 65 ≤ c.toNat ∧ c.toNat ≤ 70 then some (c.toNat - 55)
  else none

/-- Errors raised by the `bson` layer: `ObjectId(s)` raises `InvalidId` for a
string that is not 24 hexadecimal characters. -/
inductive BsonError where
  | invalidObjectId
  deriving DecidableEq, Repr

/-- Model of `_oid` (src/main.py:378-381): `bson.ObjectId(s)` parses a
24-character hexadecimal string into an id, and raises `InvalidId` (modelled
as `Except.error`) on any other string. -/
def _oid (s : Str) : Except BsonError Nat :=
  if s.length = 24 ∧ s.all (fun c => (hexVal c).isSome) then
    Except.ok (s.foldl (fun a c => a * 16 + (hexVal c).getD 0) 0)
  else
    Except.error BsonError.invalidObjectId

/-- The 24-character lowercase hexadecimal string form `str(ObjectId)` of a
model id. -/
def encodeOid (n : Nat) : Str :=
  let ds := Nat.toDigits 16 n
  List.replicate (24 - ds.length) '0' ++ ds

/-- Environment configuration of the bot (src/main.py:29-47): the two reward
pool drop ids and the daily submission cap. -/
structure Config where
  t1_drop_id : Str
  t2_drop_id : Str
  max_per_day : Nat
  deriving DecidableEq, Repr

/-- One document of the `ugc_submissions` collection
(shape built in `submit_got_tier`, src/main.py:233-248). -/
structure Submission where
  id : Nat
  user_id : Int
  usernameLower : Str
  platform : Str
  post_url : Str
  post_hash : Str
  ugc_code : Str
  caption : Str
  proof_sha256 : Str
  tier_claimed : Str
  status : Str
  created_at : Int
  updated_at : Int
  metrics_proof_sha256 : Option Str
  validated_at : Option Int
  deriving DecidableEq, Repr

/-- One document of the `ugc_codes` collection (fields read in
`validate_code` and written in `submit_got_tier`, src/main.py:143-152, 263). -/
structure CodeDoc where
  code : Str
  user_id : Int
  status : Str
  used_at : Option Int
  ugc_id : Option Str
  deriving DecidableEq, Repr

/-- One document of the `reward_ledger` collection
(shape built in `_create_reward_ledger`, src/main.py:287-298). -/
structure LedgerEntry where
  user_id : Int
  ugc_id : Str
  tier : Str
  amount : Nat
  drop_id : Str
  status : Str
  created_at : Int
  claimable_after : Int
  claimed_at : Option Int
  voucher_code : Option Str
  deriving DecidableEq, Repr

/-- The ephemeral per-session draft accumulated in `context.user_data` by the
submit conversation (src/main.py:174-176, 187, 197, 212). -/
structure Draft where
  platform : Str
  post_url : Str
  post_hash : Str
  ugc_code : Str
  caption : Str
  proof_sha256 : Str
  deriving DecidableEq, Repr

/-- The persistent state: the three MongoDB collections, the ObjectId
generator (fresh ids come from `nextId`), and the current clock instant
returned by `now_utc`. -/
structure DB where
  subs : List Submission
  codes : List CodeDoc
  ledger : List LedgerEntry
  nextId : Nat
  now : Int
  deriving DecidableEq, Repr

/-- `timedelta(days=1)` in seconds. -/
def DAY : Int := 86400

/-- Replace the first element satisfying `p` (the semantics of Mongo
`update_one` with a `$set` document, applied to a list collection). -/
def updateFirst {α : Type} (p : α → Bool) (f : α → α) : List α → List α
  | [] => []
  | x :: xs => if p x then f x :: xs else x :: updateFirst p f xs

/-- The unique-index key of `ugc_submissions`
(`uq_ugc_platform_posthash`, src/main.py:88-92). -/
def subKeyMatch (platform post_hash : Str) (s : Submission) : Bool :=
  decide (s.platform = platform ∧ s.post_hash = post_hash)

/-- The unique-index key of `reward_ledger`
(`uq_reward_ugc_tier`, src/main.py:97-101). -/
def ledgerKeyMatch (ugc_id tier : Str) (e : LedgerEntry) : Bool :=
  decide (e.ugc_id = ugc_id ∧ e.tier = tier)

/-- First ledger entry for a (submission id string, tier) key, if any. -/
def findLedger (db : DB) (ugc_id tier : Str) : Option LedgerEntry :=
  db.ledger.find? (ledgerKeyMatch ugc_id tier)

/-- Number of ledger entries carrying a (submission id string, tier) key. -/
def ledgerKeyCount (db : DB) (ugc_id tier : Str) : Nat :=
  (db.ledger.filter (ledgerKeyMatch ugc_id tier)).length

/-- Model of `_daily_submission_count` (src/main.py:138-140): count the
user's submissions whose creation instant lies in the trailing 24-hour
window (`created_at >= now - 1 day`, inclusive). -/
def _daily_submission_count (db : DB) (user_id : Int) : Nat :=
  (db.subs.filter
    (fun s => decide (s.user_id = user_id ∧ db.now - DAY ≤ s.created_at))).length

/-- Model of `validate_code` (src/main.py:143-152): returns the `(ok, message)`
pair of the source.  Checks run in order: existence, ownership, then
used/expired status. -/
def validate_code (db : DB) (user_id : Int) (code : Str) : Bool × Str :=
  let code := pyStrip code
  match db.codes.find? (fun d => decide (d.code = code)) with
  | none => (false, str "Code not found. Get a code from the community bot first.")
  | some doc =>
    if doc.user_id ≠ user_id then
      (false, str "This code is not bound to your account.")
    else if doc.status = str "used" ∨ doc.status = str "expired" then
      (false, str "Code already used/expired. Get a new one from the community bot.")
    else
      (true, str "OK")

/-- Outcome of the `/submit` entry point. -/
inductive SubmitEntry where
  | dmOnly
  | rateLimited
  | askUrl
  deriving DecidableEq, Repr

/-- Model of `submit_cmd` (src/main.py:155-165): require a private chat, then
reject with the rate-limit message once the daily count reaches the cap,
otherwise prompt for the URL (state `S_PLATFORM_URL`). -/
def submit_cmd (cfg : Config) (db : DB) (user_id : Int) (isPrivate : Bool) :
    SubmitEntry :=
  if !isPrivate then SubmitEntry.dmOnly
  else if cfg.max_per_day ≤ _daily_submission_count db user_id then
    SubmitEntry.rateLimited
  else SubmitEntry.askUrl

/-- Outcome of the URL step of the submit conversation. -/
inductive UrlStep where
  | invalidUrl
  | toCode (platform post_url post_hash : Str)
  deriving DecidableEq, Repr

/-- Model of `submit_got_url` (src/main.py:168-178): normalize the message
text, detect the platform, and stage (platform, url, post_hash) in the
draft. -/
def submit_got_url (text : Str) : UrlStep :=
  let url := normalize_url text
  match detect_platform url with
  | none => UrlStep.invalidUrl
  | some platform => UrlStep.toCode platform url (post_hash_of platform url)

/-- Model of `_create_reward_ledger` (src/main.py:284-304): an upsert keyed on
(`ugc_id`, `tier`) whose `$setOnInsert` document fixes amount and pool by
tier; if an entry with the key exists the write is a no-op, otherwise the
document is inserted. -/
def _create_reward_ledger (cfg : Config) (db : DB) (user_id : Int)
    (ugc_id tier : Str) : DB :=
  let drop_id := if tier = str "T1" then cfg.t1_drop_id else cfg.t2_drop_id
  let amount : Nat := if tier = str "T1" then 1 else 5
  let doc : LedgerEntry :=
    { user_id := user_id
      ugc_id := ugc_id
      tier := tier
      amount := amount
      drop_id := drop_id
      status := str "pending_claim"
      created_at := db.now
      claimable_after := db.now
      claimed_at := none
      voucher_code := none }
  match db.ledger.find? (ledgerKeyMatch ugc_id tier) with
  | some _ => db
  | none => { db with ledger := db.ledger ++ [doc] }

/-- Outcome of the tier step (the commit) of the submit conversation. -/
inductive TierResult where
  | invalidTier
  | duplicate (ugc_id : Str)
  | validatedT1 (ugc_id : Str)
  | pendingT2 (ugc_id : Str)
  deriving DecidableEq, Repr

/-- The submission document built at commit time (src/main.py:233-248):
status starts as `submitted`, both timestamps are now, and the metrics and
validation fields are null. -/
def mkSubmission (db : DB) (user_id : Int) (username : Str) (d : Draft)
    (tier : Str) : Submission :=
  { id := db.nextId
    user_id := user_id
    usernameLower := pyLower username
    platform := d.platform
    post_url := d.post_url
    post_hash := d.post_hash
    ugc_code := d.ugc_code
    caption := d.caption
    proof_sha256 := d.proof_sha256
    tier_claimed := tier
    status := str "submitted"
    created_at := db.now
    updated_at := db.now
    metrics_proof_sha256 := none
    validated_at := none }

/-- Model of `submit_got_tier` (src/main.py:218-281): normalize the tier
token; build the submission document; attempt the unique insert (a key
conflict — `DuplicateKeyError` — looks up the existing record and reports a
duplicate, changing nothing); otherwise mark the code used, and for T1
immediately mark the record validated and grant the T1 ledger entry. -/
def submit_got_tier (cfg : Config) (db : DB) (user_id : Int) (username : Str)
    (d : Draft) (text : Str) : DB × TierResult :=
  let tier := pyUpper (pyStrip text)
  if tier = str "T1" ∨ tier = str "T2" then
    match db.subs.find? (subKeyMatch d.platform d.post_hash) with
    | some existing => (db, TierResult.duplicate (encodeOid existing.id))
    | none =>
      let sub : Submission := mkSubmission db user_id username d tier
      let ugc_id := encodeOid db.nextId
      let db1 : DB := { db with subs := db.subs ++ [sub], nextId := db.nextId + 1 }
      let db2 : DB :=
        { db1 with
          codes := updateFirst (fun c => decide (c.code = d.ugc_code))
            (fun c =>
              { c with
                status := str "used"
                used_at := some db.now
                ugc_id := some ugc_id }) db1.codes }
      if tier = str "T1" then
        let db3 : DB :=
          { db2 with
            subs := updateFirst (fun s => decide (s.id = sub.id))
              (fun s =>
                { s with
                  status := str "validated"
                  validated_at := some db.now }) db2.subs }
        let db4 := _create_reward_ledger cfg db3 user_id ugc_id (str "T1")
        (db4, TierResult.validatedT1 ugc_id)
      else
        (db2, TierResult.pendingT2 ugc_id)
  else (db, TierResult.invalidTier)

/-- Outcome of the `/metrics` entry point. -/
inductive MetricsCmd where
  | dmOnly
  | usage
  | askPhoto (stored : Str)
  deriving DecidableEq, Repr

/-- Model of `metrics_cmd` (src/main.py:307-318): require a private chat and
an argument; stage the stripped id string and prompt for the photo. -/
def metrics_cmd (isPrivate : Bool) (args : List Str) : MetricsCmd :=
  if !isPrivate then MetricsCmd.dmOnly
  else
    match args with
    | [] => MetricsCmd.usage
    | a :: _ => MetricsCmd.askPhoto (pyStrip a)

/-- Outcome of the metrics-proof step. -/
inductive MetricsView where
  | missingId
  | needPhoto
  | notFound
  | validated (ugc_id : Str)
  deriving DecidableEq, Repr

/-- Model of `metrics_got_proof` (src/main.py:321-354): check the staged id
and the photo; parse the id (`_oid` may raise, propagated as
`Except.error`); look the submission up scoped to the caller; then set the
metrics fingerprint, mark the record validated, and grant the T2 ledger
entry keyed on the staged id string. -/
def metrics_got_proof (cfg : Config) (db : DB) (user_id : Int)
    (stored : Option Str) (photo : Option Str) :
    Except BsonError (DB × MetricsView) :=
  match stored with
  | none => Except.ok (db, MetricsView.missingId)
  | some ugc_id =>
    match photo with
    | none => Except.ok (db, MetricsView.needPhoto)
    | some content =>
      match _oid ugc_id with
      | Except.error e => Except.error e
      | Except.ok i =>
        match db.subs.find? (fun s => decide (s.id = i ∧ s.user_id = user_id)) with
        | none => Except.ok (db, MetricsView.notFound)
        | some _ =>
          let metrics_hash := sha256_bytes content
          let db1 : DB :=
            { db with
              subs := updateFirst (fun s => decide (s.id = i))
                (fun s =>
                  { s with
                    metrics_proof_sha256 := some metrics_hash
                    status := str "validated"
                    validated_at := some db.now
                    updated_at := db.now }) db.subs }
          let db2 := _create_reward_ledger cfg db1 user_id ugc_id (str "T2")
          Except.ok (db2, MetricsView.validated ugc_id)

/-- Outcome of the `/status` command. -/
inductive StatusView where
  | dmOnly
  | usage
  | notFound
  | report (ugc_id platform tier status : Str) (validated_at : Option Int)
  deriving DecidableEq, Repr

/-- Model of `status_cmd` (src/main.py:357-375): require a private chat and
an argument; parse the stripped id (`_oid` may raise, propagated as
`Except.error`); look the submission up scoped to the caller and report its
fields, or reply not-found. -/
def status_cmd (db : DB) (user_id : Int) (isPrivate : Bool) (args : List Str) :
    Except BsonError StatusView :=
  if !isPrivate then Except.ok StatusView.dmOnly
  else
    match args with
    | [] => Except.ok StatusView.usage
    | a :: _ =>
      let ugc_id := pyStrip a
      match _oid ugc_id with
      | Except.error e => Except.error e
      | Except.ok i =>
        match db.subs.find? (fun s => decide (s.id = i ∧ s.user_id = user_id)) with
        | none => Except.ok StatusView.notFound
        | some sub =>
          Except.ok (StatusView.report ugc_id sub.platform sub.tier_claimed
            sub.status sub.validated_at)

/-! ### Character and string lemmas for URL normalization -/

lemma toNat_ofNat_valid {n : Nat} (h : n.isValidChar) : (Char.ofNat n).toNat = n := by
  unfold Char.ofNat
  rw [dif_pos h]
  simp [Char.ofNatAux, Char.toNat, UInt32.toNat]

lemma lowerChar_spec (a : Char) :
    lowerChar a = a ∨
    (isPySpace a = false ∧ a ≠ '#' ∧ a ≠ '\n' ∧
     isPySpace (lowerChar a) = false ∧ lowerChar a ≠ '#' ∧ lowerChar a ≠ '\n') := by
  by_cases h : 65 ≤ a.toNat ∧ a.toNat ≤ 90
  · right
    obtain ⟨h1, h2⟩ := h
    have hv : (a.toNat + 32).isValidChar := by left; omega
    have ht : (lowerChar a).toNat = a.toNat + 32 := by
      unfold lowerChar
      rw [if_pos ⟨h1, h2⟩]
      exact toNat_ofNat_valid hv
    refine ⟨?_, ?_, ?_, ?_, ?_, ?_⟩
    · simp only [isPySpace, Bool.or_eq_false_iff]
      refine ⟨⟨⟨⟨⟨?_, ?_⟩, ?_⟩, ?_⟩, ?_⟩, ?_⟩ <;>
        (simp only [decide_eq_false_iff_not]; rintro rfl; simp_all)
    · rintro rfl; simp_all
    · rintro rfl; simp_all
    · simp only [isPySpace, Bool.or_eq_false_iff]
      refine ⟨⟨⟨⟨⟨?_, ?_⟩, ?_⟩, ?_⟩, ?_⟩, ?_⟩ <;>
        (simp only [decide_eq_false_iff_not]; intro heq; rw [heq] at ht; simp at ht <;> omega)
    · intro heq; rw [heq] at ht; simp at ht <;> omega
    · intro heq; rw [heq] at ht; simp at ht <;> omega
  · left
    unfold lowerChar
    rw [if_neg h]

lemma lowerChar_congr_isPySpace {a b : Char} (h : lowerChar a = lowerChar b) :
    isPySpace a = isPySpace b := by
  rcases lowerChar_spec a with ha | ⟨ha1, _, _, ha4, _, _⟩ <;>
    rcases lowerChar_spec b with hb | ⟨hb1, _, _, hb4, _, _⟩
  · rw [ha, hb] at h; rw [h]
  · rw [ha] at h; rw [h, hb4, hb1]
  · rw [hb] at h; rw [← h, ha4, ha1]
  · rw [ha1, hb1]

lemma lowerChar_congr_hash {a b : Char} (h : lowerChar a = lowerChar b) :
    (a = '#') = (b = '#') := by
  rcases lowerChar_spec a with ha | ⟨_, ha2, _, _, ha5, _⟩ <;>
    rcases lowerChar_spec b with hb | ⟨_, hb2, _, _, hb5, _⟩
  · rw [ha, hb] at h; rw [h]
  · rw [ha] at h
    simp only [eq_iff_iff]
    constructor
    · intro hh; rw [hh] at h; exact absurd h.symm hb5
    · intro hh; exact absurd hh hb2
  · rw [hb] at h
    simp only [eq_iff_iff]
    constructor
    · intro hh; exact absurd hh ha2
    · intro hh; rw [hh] at h; exact absurd h ha5
  · simp only [eq_iff_iff]
    constructor
    · intro hh; exact absurd hh ha2
    · intro hh; exact absurd hh hb2

lemma lowerChar_congr_nl {a b : Char} (h : lowerChar a = lowerChar b) :
    (a = '\n') = (b = '\n') := by
  rcases lowerChar_spec a with ha | ⟨_, _, ha3, _, _, ha6⟩ <;>
    rcases lowerChar_spec b with hb | ⟨_, _, hb3, _, _, hb6⟩
  · rw [ha, hb] at h; rw [h]
  · rw [ha] at h
    simp only [eq_iff_iff]
    constructor
    · intro hh; rw [hh] at h; exact absurd h.symm hb6
    · intro hh; exact absurd hh hb3
  · rw [hb] at h
    simp only [eq_iff_iff]
    constructor
    · intro hh; exact absurd hh ha3
    · intro hh; rw [hh] at h; exact absurd h ha6
  · simp only [eq_iff_iff]
    constructor
    · intro hh; exact absurd hh ha3
    · intro hh; exact absurd hh hb3

lemma dropWhile_eq_self_of_neg {p : Char → Bool} {l : Str}
    (h : ∀ c ∈ l, p c = false) : l.dropWhile p = l := by
  cases l with
  | nil => rfl
  | cons c rest =>
    rw [List.dropWhile_cons, if_neg]
    simp [h c (List.mem_cons_self _ _)]

lemma dropWhile_append_cons {p : Char → Bool} {c : Char} (l1 l2 : Str)
    (h : p c = false) :
    (l1 ++ c :: l2).dropWhile p = l1.dropWhile p ++ c :: l2 := by
  induction l1 with
  | nil =>
    simp only [List.nil_append, List.dropWhile_nil]
    rw [List.dropWhile_cons, if_neg (by simp [h])]
  | cons x xs ih =>
    rw [List.cons_append, List.dropWhile_cons, List.dropWhile_cons]
    by_cases hx : p x
    · rw [if_pos hx, if_pos hx, ih]
    · rw [if_neg hx, if_neg hx, List.cons_append]

lemma pyStrip_pad (w1 w2 u : Str) (h1 : ∀ c ∈ w1, isPySpace c)
    (h2 : ∀ c ∈ w2, isPySpace c) :
    pyStrip (w1 ++ u ++ w2) = pyStrip u := by
  unfold pyStrip
  rw [List.append_assoc, List.dropWhile_append_of_pos h1]
  rw [List.dropWhile_append]
  by_cases he : (u.dropWhile isPySpace).isEmpty
  · rw [if_pos he]
    have hw2 : w2.dropWhile isPySpace = [] := by
      rw [List.dropWhile_eq_nil_iff]
      intro x hx
      exact h2 x hx
    rw [hw2]
    have hu : u.dropWhile isPySpace = [] := List.isEmpty_iff.mp he
    rw [hu]
  · rw [if_neg he, List.reverse_append, List.dropWhile_append_of_pos]
    intro c hc
    rw [List.mem_reverse] at hc
    exact h2 c hc

lemma fragRem_of_no_newline {l : Str} (h : '\n' ∉ l) : fragRem l = some [] := by
  induction l with
  | nil => rfl
  | cons c rest ih =>
    cases rest with
    | nil =>
      have : c ≠ '\n' := by intro hc; exact h (hc ▸ List.mem_cons_self _ _)
      simp [fragRem, this]
    | cons c2 r2 =>
      have hc : c ≠ '\n' := fun hc => h (hc ▸ List.mem_cons_self _ _)
      have : '\n' ∉ c2 :: r2 := fun hm => h (List.mem_cons_of_mem _ hm)
      simp only [fragRem, if_neg hc]
      exact ih this

lemma pyFragSub_of_no_hash {u : Str} (h : '#' ∉ u) : pyFragSub u = u := by
  induction u with
  | nil => rfl
  | cons c rest ih =>
    have hc : c ≠ '#' := fun hc => h (hc ▸ List.mem_cons_self _ _)
    have : '#' ∉ rest := fun hm => h (List.mem_cons_of_mem _ hm)
    simp only [pyFragSub, if_neg hc]
    rw [ih this]

lemma pyFragSub_hash (u f : Str) (hu : '#' ∉ u) (hf : '\n' ∉ f) :
    pyFragSub (u ++ '#' :: f) = u := by
  induction u with
  | nil =>
    simp [pyFragSub, fragRem_of_no_newline hf]
  | cons c rest ih =>
    have hc : c ≠ '#' := fun hc => hu (hc ▸ List.mem_cons_self _ _)
    have : '#' ∉ rest := fun hm => hu (List.mem_cons_of_mem _ hm)
    simp only [List.cons_append, pyFragSub, if_neg hc, List.append_eq]
    rw [ih this]

lemma pyStrip_of_no_space {u : Str} (h : ∀ c ∈ u, isPySpace c = false) :
    pyStrip u = u := by
  unfold pyStrip
  rw [dropWhile_eq_self_of_neg h, dropWhile_eq_self_of_neg, List.reverse_reverse]
  intro c hc
  rw [List.mem_reverse] at hc
  exact h c hc

lemma pyStrip_append_hash (u f : Str) (hu : ∀ c ∈ u, isPySpace c = false) :
    pyStrip (u ++ '#' :: f) =
      u ++ '#' :: (f.reverse.dropWhile isPySpace).reverse := by
  unfold pyStrip
  have h1 : (u ++ '#' :: f).dropWhile isPySpace = u ++ '#' :: f := by
    cases u with
    | nil => rw [List.nil_append, List.dropWhile_cons, if_neg (by decide)]
    | cons x xs =>
      rw [List.cons_append, List.dropWhile_cons,
        if_neg (by simp [hu x (List.mem_cons_self _ _)])]
  rw [h1, List.reverse_append, List.reverse_cons, List.append_assoc,
    List.singleton_append, dropWhile_append_cons _ _ (by decide),
    List.reverse_append, List.reverse_cons, List.reverse_reverse,
    List.append_assoc, List.singleton_append]

lemma normalize_append_hash (u f : Str) (huw : ∀ c ∈ u, isPySpace c = false)
    (hu : '#' ∉ u) (hf : '\n' ∉ f) :
    normalize_url (u ++ '#' :: f) = normalize_url u := by
  unfold normalize_url
  rw [pyStrip_append_hash u f huw, pyStrip_of_no_space huw,
    pyFragSub_of_no_hash hu]
  apply pyFragSub_hash u _ hu
  intro hm
  rw [List.mem_reverse] at hm
  have hm2 := (List.dropWhile_sublist (l := f.reverse) isPySpace).subset hm
  rw [List.mem_reverse] at hm2
  exact hf hm2

lemma pyLower_dropWhile_congr {l1 l2 : Str} (h : pyLower l1 = pyLower l2) :
    pyLower (l1.dropWhile isPySpace) = pyLower (l2.dropWhile isPySpace) := by
  induction l1 generalizing l2 with
  | nil =>
    have : l2 = [] := by
      have := congrArg List.length h
      simpa [pyLower] using (List.length_eq_zero.mp (by simpa [pyLower] using this.symm))
    rw [this]
  | cons c r ih =>
    cases l2 with
    | nil => simp [pyLower] at h
    | cons d s =>
      simp only [pyLower, List.map_cons, List.cons.injEq] at h
      obtain ⟨hc, hr⟩ := h
      have hsp := lowerChar_congr_isPySpace hc
      rw [List.dropWhile_cons, List.dropWhile_cons]
      by_cases hws : isPySpace c
      · rw [if_pos hws, if_pos (hsp ▸ hws)]
        exact ih hr
      · rw [if_neg hws, if_neg (fun hws2 => hws (hsp ▸ hws2))]
        simp only [pyLower, List.map_cons]
        rw [hc]
        exact congrArg _ hr

lemma pyLower_reverse (l : Str) : pyLower l.reverse = (pyLower l).reverse := by
  simp [pyLower, List.map_reverse]

lemma pyLower_pyStrip_congr {l1 l2 : Str} (h : pyLower l1 = pyLower l2) :
    pyLower (pyStrip l1) = pyLower (pyStrip l2) := by
  unfold pyStrip
  have h1 := pyLower_dropWhile_congr h
  have h2 : pyLower (l1.dropWhile isPySpace).reverse =
      pyLower (l2.dropWhile isPySpace).reverse := by
    rw [pyLower_reverse, pyLower_reverse, h1]
  have h3 := pyLower_dropWhile_congr h2
  rw [pyLower_reverse, pyLower_reverse, h3]

lemma fragRem_congr {l1 l2 : Str} (h : pyLower l1 = pyLower l2) :
    fragRem l1 = fragRem l2 := by
  induction l1 generalizing l2 with
  | nil =>
    have : l2 = [] := by
      simpa [pyLower] using congrArg List.length h.symm
    rw [this]
  | cons c r ih =>
    cases l2 with
    | nil => simp [pyLower] at h
    | cons d s =>
      simp only [pyLower, List.map_cons, List.cons.injEq] at h
      obtain ⟨hc, hr⟩ := h
      have hnl := lowerChar_congr_nl hc
      cases r with
      | nil =>
        cases s with
        | nil =>
          show (if c = '\n' then some ['\n'] else some []) =
            (if d = '\n' then some ['\n'] else some [])
          have hiff := eq_iff_iff.mp hnl
          by_cases hcnl : c = '\n'
          · rw [if_pos hcnl, if_pos (hiff.mp hcnl)]
          · rw [if_neg hcnl, if_neg (fun hd => hcnl (hiff.mpr hd))]
        | cons y ys => simp [pyLower] at hr
      | cons x xs =>
        cases s with
        | nil => simp [pyLower] at hr
        | cons y ys =>
          show (if c = '\n' then none else fragRem (x :: xs)) =
            (if d = '\n' then none else fragRem (y :: ys))
          have hiff := eq_iff_iff.mp hnl
          by_cases hcnl : c = '\n'
          · rw [if_pos hcnl, if_pos (hiff.mp hcnl)]
          · rw [if_neg hcnl, if_neg (fun hd => hcnl (hiff.mpr hd))]
            exact ih hr

lemma pyFragSub_congr {l1 l2 : Str} (h : pyLower l1 = pyLower l2) :
    pyLower (pyFragSub l1) = pyLower (pyFragSub l2) := by
  induction l1 generalizing l2 with
  | nil =>
    have : l2 = [] := by
      simpa [pyLower] using congrArg List.length h.symm
    rw [this]
  | cons c r ih =>
    cases l2 with
    | nil => simp [pyLower] at h
    | cons d s =>
      simp only [pyLower, List.map_cons, List.cons.injEq] at h
      obtain ⟨hc, hr⟩ := h
      have hh := eq_iff_iff.mp (lowerChar_congr_hash hc)
      show pyLower (if c = '#' then
          match fragRem r with
          | some leftover => leftover
          | none => c :: pyFragSub r
        else c :: pyFragSub r) =
        pyLower (if d = '#' then
          match fragRem s with
          | some leftover => leftover
          | none => d :: pyFragSub s
        else d :: pyFragSub s)
      have hfr : fragRem r = fragRem s := fragRem_congr hr
      by_cases hch : c = '#'
      · rw [if_pos hch, if_pos (hh.mp hch), hfr]
        cases hs : fragRem s with
        | some leftover => rfl
        | none =>
          simp only [pyLower, List.map_cons]
          rw [hc]
          exact congrArg _ (ih hr)
      · rw [if_neg hch, if_neg (fun hd => hch (hh.mpr hd))]
        simp only [pyLower, List.map_cons]
        rw [hc]
        exact congrArg _ (ih hr)

lemma pyLower_normalize_congr {l1 l2 : Str} (h : pyLower l1 = pyLower l2) :
    pyLower (normalize_url l1) = pyLower (normalize_url l2) :=
  pyFragSub_congr (pyLower_pyStrip_congr h)

/-- Claim C8: URL fingerprinting is a pure deterministic function of
(platform, URL); normalization trims surrounding whitespace, strips the
fragment component, and lower-cases before combining with the platform tag,
so two URLs differing only in leading/trailing whitespace, only in letter
case, or only by a trailing `#...` fragment produce the same fingerprint.
(The whitespace hypothesis in the fragment part reflects that a URL body
contains no whitespace, and the fragment contains no newline.) -/
theorem fingerprint_invariance :
    (∀ p u w1 w2 : Str, (∀ c ∈ w1, isPySpace c) → (∀ c ∈ w2, isPySpace c) →
      fingerprintURL p (w1 ++ u ++ w2) = fingerprintURL p u) ∧
    (∀ p u v : Str, pyLower u = pyLower v →
      fingerprintURL p u = fingerprintURL p v) ∧
    (∀ p u f : Str, (∀ c ∈ u, isPySpace c = false) → '#' ∉ u → '\n' ∉ f →
      fingerprintURL p (u ++ '#' :: f) = fingerprintURL p u) := by
  refine ⟨?_, ?_, ?_⟩
  · intro p u w1 w2 h1 h2
    unfold fingerprintURL normalize_url
    rw [pyStrip_pad w1 w2 u h1 h2]
  · intro p u v h
    unfold fingerprintURL post_hash_of
    rw [pyLower_normalize_congr h]
  · intro p u f huw hu hf
    unfold fingerprintURL
    rw [normalize_append_hash u f huw hu hf]

/-- Witness for C8 at concrete URLs: padding with spaces, changing letter
case, and appending a `#comment` fragment all leave the fingerprint of a
TikTok URL unchanged. -/
theorem fingerprint_invariance_witness :
    fingerprintURL (str "tt") (str " https://tiktok.com/@x/video/1  ") =
      fingerprintURL (str "tt") (str "https://tiktok.com/@x/video/1") ∧
    fingerprintURL (str "tt") (str "https://TIKTOK.com/@X/Video/1") =
      fingerprintURL (str "tt") (str "https://tiktok.com/@x/video/1") ∧
    fingerprintURL (str "tt") (str "https://tiktok.com/@x/video/1#comment") =
      fingerprintURL (str "tt") (str "https://tiktok.com/@x/video/1") := by
  refine ⟨?_, ?_, ?_⟩
  · have e : str " https://tiktok.com/@x/video/1  " =
        str " " ++ str "https://tiktok.com/@x/video/1" ++ str "  " := by decide
    rw [e]
    exact fingerprint_invariance.1 (str "tt") (str "https://tiktok.com/@x/video/1")
      (str " ") (str "  ") (by decide) (by decide)
  · exact fingerprint_invariance.2.1 (str "tt") (str "https://TIKTOK.com/@X/Video/1")
      (str "https://tiktok.com/@x/video/1") (by decide)
  · have e : str "https://tiktok.com/@x/video/1#comment" =
        str "https://tiktok.com/@x/video/1" ++ '#' :: str "comment" := by decide
    rw [e]
    exact fingerprint_invariance.2.2 (str "tt") (str "https://tiktok.com/@x/video/1")
      (str "comment") (by decide) (by decide) (by decide)

/-- Claim C5: code validation performs its checks in order and returns the
first failure: unknown code fails with the not-found message; a code bound
to a different user fails with the not-owned message even when it is also
used or expired; an owned but used-or-expired code fails with the
already-used message; otherwise validation succeeds. -/
theorem validate_code_check_order (db : DB) (user_id : Int) (code : Str) :
    (db.codes.find? (fun d => decide (d.code = pyStrip code)) = none →
      validate_code db user_id code =
        (false, str "Code not found. Get a code from the community bot first.")) ∧
    (∀ d, db.codes.find? (fun d => decide (d.code = pyStrip code)) = some d →
      (d.user_id ≠ user_id →
        validate_code db user_id code =
          (false, str "This code is not bound to your account.")) ∧
      (d.user_id = user_id → (d.status = str "used" ∨ d.status = str "expired") →
        validate_code db user_id code =
          (false, str "Code already used/expired. Get a new one from the community bot.")) ∧
      (d.user_id = user_id → d.status ≠ str "used" → d.status ≠ str "expired" →
        validate_code db user_id code = (true, str "OK"))) := by
  constructor
  · intro h
    simp only [validate_code]
    rw [h]
  · intro d hd
    refine ⟨?_, ?_, ?_⟩
    · intro hne
      simp only [validate_code, hd]
      rw [if_pos hne]
    · intro he hst
      simp only [validate_code, hd]
      rw [if_neg (by simp [he]), if_pos hst]
    · intro he h1 h2
      simp only [validate_code, hd]
      rw [if_neg (by simp [he]), if_neg (by simp [h1, h2])]

/-- Witness for C5: a concrete store holding code `C1` bound to user 7 with
status `used` — a lookup by user 8 fails with the not-owned message (the
ownership check fires before the used/expired check), and an unknown code
fails with the not-found message. -/
theorem validate_code_check_order_witness :
    validate_code
      { subs := [], ledger := [], nextId := 0, now := 1000
        codes := [{ code := str "C1", user_id := 7, status := str "used",
                    used_at := none, ugc_id := none }] } 8 (str "C1") =
      (false, str "This code is not bound to your account.") ∧
    validate_code
      { subs := [], ledger := [], nextId := 0, now := 1000
        codes := [{ code := str "C1", user_id := 7, status := str "used",
                    used_at := none, ugc_id := none }] } 8 (str "C2") =
      (false, str "Code not found. Get a code from the community bot first.") := by
  constructor
  · exact ((validate_code_check_order
      { subs := [], ledger := [], nextId := 0, now := 1000
        codes := [{ code := str "C1", user_id := 7, status := str "used",
                    used_at := none, ugc_id := none }] } 8 (str "C1")).2
      { code := str "C1", user_id := 7, status := str "used",
        used_at := none, ugc_id := none } (by decide)).1 (by decide)
  · exact (validate_code_check_order
      { subs := [], ledger := [], nextId := 0, now := 1000
        codes := [{ code := str "C1", user_id := 7, status := str "used",
                    used_at := none, ugc_id := none }] } 8 (str "C2")).1 (by decide)

/-- Claim C1: the reward-ledger grant is an idempotent upsert keyed on
(submission id, tier): with no entry for the key, the call appends exactly
one entry with status `pending_claim`, amount 1 for T1 and 5 otherwise, the
tier's configured pool reference, creation and earliest-claimable instants
equal to now, and no claim timestamp; with an entry present the call leaves
the whole state unchanged, so any number of repetitions (with any caller and
any clock) leave exactly one entry for the key. -/
theorem ledger_grant_idempotent (cfg : Config) (db : DB) (user_id : Int)
    (ugc_id tier : Str) :
    (findLedger db ugc_id tier = none →
      _create_reward_ledger cfg db user_id ugc_id tier =
        { db with ledger := db.ledger ++
            [{ user_id := user_id
               ugc_id := ugc_id
               tier := tier
               amount := if tier = str "T1" then 1 else 5
               drop_id := if tier = str "T1" then cfg.t1_drop_id else cfg.t2_drop_id
               status := str "pending_claim"
               created_at := db.now
               claimable_after := db.now
               claimed_at := none
               voucher_code := none }] }) ∧
    (∀ e, findLedger db ugc_id tier = some e →
      _create_reward_ledger cfg db user_id ugc_id tier = db) ∧
    (ledgerKeyCount db ugc_id tier = 0 →
      ledgerKeyCount (_create_reward_ledger cfg db user_id ugc_id tier) ugc_id tier = 1) ∧
    (findLedger db ugc_id tier = none → ∀ db2 : DB, ∀ u2 : Int,
      db2.ledger = (_create_reward_ledger cfg db user_id ugc_id tier).ledger →
      _create_reward_ledger cfg db2 u2 ugc_id tier = db2) := by
  have hnone_of_count : ledgerKeyCount db ugc_id tier = 0 →
      findLedger db ugc_id tier = none := by
    intro h
    unfold ledgerKeyCount at h
    unfold findLedger
    rw [List.find?_eq_none]
    intro e he hpe
    have : e ∈ db.ledger.filter (ledgerKeyMatch ugc_id tier) :=
      List.mem_filter.mpr ⟨he, hpe⟩
    rw [List.length_eq_zero.mp h] at this
    exact absurd this (List.not_mem_nil e)
  refine ⟨?_, ?_, ?_, ?_⟩
  · intro h
    unfold _create_reward_ledger
    unfold findLedger at h
    rw [h]
  · intro e he
    unfold _create_reward_ledger
    unfold findLedger at he
    rw [he]
  · intro h
    have hn := hnone_of_count h
    unfold _create_reward_ledger
    unfold findLedger at hn
    rw [hn]
    unfold ledgerKeyCount at h ⊢
    simp only [List.filter_append, List.length_append, h]
    simp [ledgerKeyMatch]
  · intro hn db2 u2 hledger
    have hl1 : (_create_reward_ledger cfg db user_id ugc_id tier).ledger =
        db.ledger ++
          [{ user_id := user_id
             ugc_id := ugc_id
             tier := tier
             amount := if tier = str "T1" then 1 else 5
             drop_id := if tier = str "T1" then cfg.t1_drop_id else cfg.t2_drop_id
             status := str "pending_claim"
             created_at := db.now
             claimable_after := db.now
             claimed_at := none
             voucher_code := none }] := by
      unfold _create_reward_ledger
      unfold findLedger at hn
      rw [hn]
    have hfind : db2.ledger.find? (ledgerKeyMatch ugc_id tier) ≠ none := by
      rw [hledger, hl1, List.find?_append]
      unfold findLedger at hn
      rw [hn]
      simp [ledgerKeyMatch]
    unfold _create_reward_ledger
    cases hf : db2.ledger.find? (ledgerKeyMatch ugc_id tier) with
    | none => exact absurd hf hfind
    | some e => rfl

/-- Witness for C1: granting a T1 reward on an empty ledger leaves exactly
one entry for the key, and repeating the grant (even for a different caller)
changes nothing. -/
theorem ledger_grant_idempotent_witness :
    ledgerKeyCount
      (_create_reward_ledger ⟨str "d1", str "d2", 20⟩
        { subs := [], codes := [], ledger := [], nextId := 0, now := 5 }
        7 (str "ID") (str "T1")) (str "ID") (str "T1") = 1 ∧
    _create_reward_ledger ⟨str "d1", str "d2", 20⟩
      (_create_reward_ledger ⟨str "d1", str "d2", 20⟩
        { subs := [], codes := [], ledger := [], nextId := 0, now := 5 }
        7 (str "ID") (str "T1"))
      9 (str "ID") (str "T1") =
    _create_reward_ledger ⟨str "d1", str "d2", 20⟩
      { subs := [], codes := [], ledger := [], nextId := 0, now := 5 }
      7 (str "ID") (str "T1") := by
  constructor
  · exact (ledger_grant_idempotent ⟨str "d1", str "d2", 20⟩
      { subs := [], codes := [], ledger := [], nextId := 0, now := 5 }
      7 (str "ID") (str "T1")).2.2.1 (by decide)
  · exact (ledger_grant_idempotent ⟨str "d1", str "d2", 20⟩
      { subs := [], codes := [], ledger := [], nextId := 0, now := 5 }
      7 (str "ID") (str "T1")).2.2.2 (by decide) _ 9 rfl

/-- Claim C4: when the commit hits the duplicate case, the session ends with
a duplicate notice carrying the existing submission's id and all persistent
state is unchanged — in particular the draft's code is not consumed, no
ledger entry is created, and the existing record is untouched. -/
theorem duplicate_commit_noop (cfg : Config) (db : DB) (user_id : Int)
    (username : Str) (d : Draft) (text : Str) (ex : Submission)
    (hex : db.subs.find? (subKeyMatch d.platform d.post_hash) = some ex)
    (htier : pyUpper (pyStrip text) = str "T1" ∨ pyUpper (pyStrip text) = str "T2") :
    submit_got_tier cfg db user_id username d text =
      (db, TierResult.duplicate (encodeOid ex.id)) ∧
    (submit_got_tier cfg db user_id username d text).1.codes = db.codes ∧
    (submit_got_tier cfg db user_id username d text).1.ledger = db.ledger ∧
    (submit_got_tier cfg db user_id username d text).1.subs = db.subs := by
  have h : submit_got_tier cfg db user_id username d text =
      (db, TierResult.duplicate (encodeOid ex.id)) := by
    simp only [submit_got_tier, if_pos htier, hex]
  exact ⟨h, by rw [h], by rw [h], by rw [h]⟩

/-- Witness for C4: a store already holding the draft's (platform, hash) key
— the commit returns the duplicate notice with the existing id 3 and the
state unchanged. -/
theorem duplicate_commit_noop_witness :
    submit_got_tier ⟨str "d1", str "d2", 20⟩
      { subs := [{ id := 3, user_id := 7, usernameLower := str "u",
                   platform := str "tt", post_url := str "U",
                   post_hash := str "H", ugc_code := str "C1",
                   caption := str "hello", proof_sha256 := str "P",
                   tier_claimed := str "T1", status := str "validated",
                   created_at := 1, updated_at := 1,
                   metrics_proof_sha256 := none, validated_at := some 1 }]
        codes := [{ code := str "C2", user_id := 8, status := str "unused",
                    used_at := none, ugc_id := none }]
        ledger := [], nextId := 4, now := 50 }
      8 (str "other")
      { platform := str "tt", post_url := str "U", post_hash := str "H",
        ugc_code := str "C2", caption := str "mine", proof_sha256 := str "Q" }
      (str "T2") =
      ({ subs := [{ id := 3, user_id := 7, usernameLower := str "u",
                    platform := str "tt", post_url := str "U",
                    post_hash := str "H", ugc_code := str "C1",
                    caption := str "hello", proof_sha256 := str "P",
                    tier_claimed := str "T1", status := str "validated",
                    created_at := 1, updated_at := 1,
                    metrics_proof_sha256 := none, validated_at := some 1 }]
         codes := [{ code := str "C2", user_id := 8, status := str "unused",
                     used_at := none, ugc_id := none }]
         ledger := [], nextId := 4, now := 50 },
       TierResult.duplicate (encodeOid 3)) := by
  exact (duplicate_commit_noop ⟨str "d1", str "d2", 20⟩
    { subs := [{ id := 3, user_id := 7, usernameLower := str "u",
                 platform := str "tt", post_url := str "U",
                 post_hash := str "H", ugc_code := str "C1",
                 caption := str "hello", proof_sha256 := str "P",
                 tier_claimed := str "T1", status := str "validated",
                 created_at := 1, updated_at := 1,
                 metrics_proof_sha256 := none, validated_at := some 1 }]
      codes := [{ code := str "C2", user_id := 8, status := str "unused",
                  used_at := none, ugc_id := none }]
      ledger := [], nextId := 4, now := 50 }
    8 (str "other")
    { platform := str "tt", post_url := str "U", post_hash := str "H",
      ugc_code := str "C2", caption := str "mine", proof_sha256 := str "Q" }
    (str "T2")
    { id := 3, user_id := 7, usernameLower := str "u",
      platform := str "tt", post_url := str "U",
      post_hash := str "H", ugc_code := str "C1",
      caption := str "hello", proof_sha256 := str "P",
      tier_claimed := str "T1", status := str "validated",
      created_at := 1, updated_at := 1,
      metrics_proof_sha256 := none, validated_at := some 1 }
    (by decide) (by decide)).1

/-- Splitting a filter count along a smaller predicate: the elements
satisfying `p` are those satisfying `q` plus those satisfying `p` but not
`q`, whenever `q` implies `p` on the list. -/
lemma filter_length_split {α : Type} (p q : α → Bool) (l : List α)
    (h : ∀ x ∈ l, q x = true → p x = true) :
    (l.filter p).length = (l.filter q).length +
      (l.filter (fun x => p x && !q x)).length := by
  induction l with
  | nil => rfl
  | cons x xs ih =>
    have hx := h x (List.mem_cons_self _ _)
    have ih2 := ih (fun y hy => h y (List.mem_cons_of_mem _ hy))
    by_cases hq : q x
    · have hp := hx hq
      rw [List.filter_cons_of_pos hp, List.filter_cons_of_pos hq,
        List.filter_cons_of_neg (by simp [hp, hq])]
      simp only [List.length_cons, ih2]
      omega
    · by_cases hp : p x
      · rw [List.filter_cons_of_pos hp, List.filter_cons_of_neg hq,
          List.filter_cons_of_pos (by simp [hp, hq])]
        simp only [List.length_cons, ih2]
        omega
      · rw [List.filter_cons_of_neg hp, List.filter_cons_of_neg hq,
          List.filter_cons_of_neg (by simp [hp, hq])]
        exact ih2

/-- Claim C6: a new submit session in a private chat is rejected with the
rate-limit reply exactly when the user's trailing-24-hour submission count
has reached `MAX_SUBMISSIONS_PER_DAY`; below the cap the session proceeds to
the URL prompt; and when the clock advances so that exactly one in-window
submission ages out of the window, the count drops by exactly one. -/
theorem rate_limit_policy (cfg : Config) (db : DB) (user_id : Int) :
    (submit_cmd cfg db user_id true = SubmitEntry.rateLimited ↔
      cfg.max_per_day ≤ _daily_submission_count db user_id) ∧
    (_daily_submission_count db user_id < cfg.max_per_day →
      submit_cmd cfg db user_id true = SubmitEntry.askUrl) ∧
    (∀ t2 : Int, db.now ≤ t2 →
      (db.subs.filter (fun s => decide (s.user_id = user_id ∧
          db.now - DAY ≤ s.created_at ∧ s.created_at < t2 - DAY))).length = 1 →
      _daily_submission_count { db with now := t2 } user_id =
        _daily_submission_count db user_id - 1) := by
  refine ⟨?_, ?_, ?_⟩
  · constructor
    · intro h
      by_contra hlt
      push_neg at hlt
      simp only [submit_cmd, Bool.not_true, Bool.false_eq_true, if_false,
        if_neg (Nat.not_le.mpr hlt)] at h
      exact absurd h (by intro hh; cases hh)
    · intro h
      simp only [submit_cmd, Bool.not_true, Bool.false_eq_true, if_false,
        if_pos h]
  · intro h
    simp only [submit_cmd, Bool.not_true, Bool.false_eq_true, if_false,
      if_neg (Nat.not_le.mpr h)]
  · intro t2 ht hone
    unfold _daily_submission_count
    simp only []
    have himp : ∀ s ∈ db.subs,
        (decide (s.user_id = user_id ∧ t2 - DAY ≤ s.created_at)) = true →
        (decide (s.user_id = user_id ∧ db.now - DAY ≤ s.created_at)) = true := by
      intro s _ hs
      simp only [decide_eq_true_eq] at hs ⊢
      exact ⟨hs.1, by omega⟩
    have hsplit := filter_length_split
      (fun s => decide (s.user_id = user_id ∧ db.now - DAY ≤ s.created_at))
      (fun s => decide (s.user_id = user_id ∧ t2 - DAY ≤ s.created_at))
      db.subs himp
    have hcong : db.subs.filter
        (fun s => (decide (s.user_id = user_id ∧ db.now - DAY ≤ s.created_at)) &&
          !(decide (s.user_id = user_id ∧ t2 - DAY ≤ s.created_at))) =
        db.subs.filter (fun s => decide (s.user_id = user_id ∧
          db.now - DAY ≤ s.created_at ∧ s.created_at < t2 - DAY)) := by
      apply List.filter_congr
      intro s _
      rw [Bool.eq_iff_iff]
      simp only [Bool.and_eq_true, Bool.not_eq_true', decide_eq_true_eq,
        decide_eq_false_iff_not]
      constructor
      · rintro ⟨⟨h1, h2⟩, h3⟩
        refine ⟨h1, h2, ?_⟩
        by_contra hc
        push_neg at hc
        exact h3 ⟨h1, hc⟩
      · rintro ⟨h1, h2, h3⟩
        exact ⟨⟨h1, h2⟩, fun hx => absurd hx.2 (by omega)⟩
    rw [hcong, hone] at hsplit
    omega

/-- Witness for C6: with a cap of 1, a user with one submission inside the
trailing day is rejected and a user with none proceeds to the URL prompt;
and advancing the clock past the older of two in-window submissions lowers
the count by exactly one. -/
theorem rate_limit_policy_witness :
    submit_cmd ⟨str "d1", str "d2", 1⟩
      { subs := [{ id := 0, user_id := 7, usernameLower := str "u",
                   platform := str "tt", post_url := str "U",
                   post_hash := str "H", ugc_code := str "C",
                   caption := str "c", proof_sha256 := str "P",
                   tier_claimed := str "T1", status := str "submitted",
                   created_at := 50000, updated_at := 50000,
                   metrics_proof_sha256 := none, validated_at := none }]
        codes := [], ledger := [], nextId := 1, now := 86400 }
      7 true = SubmitEntry.rateLimited ∧
    submit_cmd ⟨str "d1", str "d2", 1⟩
      { subs := [], codes := [], ledger := [], nextId := 0, now := 86400 }
      7 true = SubmitEntry.askUrl ∧
    _daily_submission_count
      { subs := [{ id := 0, user_id := 7, usernameLower := str "u",
                   platform := str "tt", post_url := str "U",
                   post_hash := str "H", ugc_code := str "C",
                   caption := str "c", proof_sha256 := str "P",
                   tier_claimed := str "T1", status := str "submitted",
                   created_at := 0, updated_at := 0,
                   metrics_proof_sha256 := none, validated_at := none },
                 { id := 1, user_id := 7, usernameLower := str "u",
                   platform := str "ig", post_url := str "V",
                   post_hash := str "K", ugc_code := str "C",
                   caption := str "c", proof_sha256 := str "P",
                   tier_claimed := str "T2", status := str "submitted",
                   created_at := 50000, updated_at := 50000,
                   metrics_proof_sha256 := none, validated_at := none }]
        codes := [], ledger := [], nextId := 2, now := 126400 } 7 =
    _daily_submission_count
      { subs := [{ id := 0, user_id := 7, usernameLower := str "u",
                   platform := str "tt", post_url := str "U",
                   post_hash := str "H", ugc_code := str "C",
                   caption := str "c", proof_sha256 := str "P",
                   tier_claimed := str "T1", status := str "submitted",
                   created_at := 0, updated_at := 0,
                   metrics_proof_sha256 := none, validated_at := none },
                 { id := 1, user_id := 7, usernameLower := str "u",
                   platform := str "ig", post_url := str "V",
                   post_hash := str "K", ugc_code := str "C",
                   caption := str "c", proof_sha256 := str "P",
                   tier_claimed := str "T2", status := str "submitted",
                   created_at := 50000, updated_at := 50000,
                   metrics_proof_sha256 := none, validated_at := none }]
        codes := [], ledger := [], nextId := 2, now := 86400 } 7 - 1 := by
  refine ⟨?_, ?_, ?_⟩
  · exact (rate_limit_policy ⟨str "d1", str "d2", 1⟩
      { subs := [{ id := 0, user_id := 7, usernameLower := str "u",
                   platform := str "tt", post_url := str "U",
                   post_hash := str "H", ugc_code := str "C",
                   caption := str "c", proof_sha256 := str "P",
                   tier_claimed := str "T1", status := str "submitted",
                   created_at := 50000, updated_at := 50000,
                   metrics_proof_sha256 := none, validated_at := none }]
        codes := [], ledger := [], nextId := 1, now := 86400 } 7).1.mpr (by decide)
  · exact (rate_limit_policy ⟨str "d1", str "d2", 1⟩
      { subs := [], codes := [], ledger := [], nextId := 0, now := 86400 } 7).2.1
      (by decide)
  · exact (rate_limit_policy ⟨str "d1", str "d2", 1⟩
      { subs := [{ id := 0, user_id := 7, usernameLower := str "u",
                   platform := str "tt", post_url := str "U",
                   post_hash := str "H", ugc_code := str "C",
                   caption := str "c", proof_sha256 := str "P",
                   tier_claimed := str "T1", status := str "submitted",
                   created_at := 0, updated_at := 0,
                   metrics_proof_sha256 := none, validated_at := none },
                 { id := 1, user_id := 7, usernameLower := str "u",
                   platform := str "ig", post_url := str "V",
                   post_hash := str "K", ugc_code := str "C",
                   caption := str "c", proof_sha256 := str "P",
                   tier_claimed := str "T2", status := str "submitted",
                   created_at := 50000, updated_at := 50000,
                   metrics_proof_sha256 := none, validated_at := none }]
        codes := [], ledger := [], nextId := 2, now := 86400 } 7).2.2 126400
      (by decide) (by decide)

/-- `updateFirst` leaves a first match for `p` in place (up to `f`) when `f`
preserves both the predicate and an observation `g`. -/
lemma find?_updateFirst_pres {α β : Type} (p q : α → Bool) (f : α → α)
    (g : α → β) (hp : ∀ x, p (f x) = p x) (hg : ∀ x, g (f x) = g x)
    (l : List α) (x : α) (hx : l.find? p = some x) :
    ∃ y, (updateFirst q f l).find? p = some y ∧ g y = g x := by
  induction l with
  | nil => cases hx
  | cons a as ih =>
    unfold updateFirst
    by_cases hq : q a
    · rw [if_pos hq]
      by_cases hpa : p a
      · rw [List.find?_cons_of_pos _ hpa] at hx
        injection hx with hxa
        refine ⟨f a, ?_, ?_⟩
        · rw [List.find?_cons_of_pos]
          rw [hp a]
          exact hpa
        · rw [hg a, hxa]
      · rw [List.find?_cons_of_neg _ hpa] at hx
        refine ⟨x, ?_, rfl⟩
        rw [List.find?_cons_of_neg]
        · exact hx
        · rw [hp a]
          exact hpa
    · rw [if_neg hq]
      by_cases hpa : p a
      · rw [List.find?_cons_of_pos _ hpa] at hx
        injection hx with hxa
        refine ⟨a, ?_, by rw [hxa]⟩
        rw [List.find?_cons_of_pos _ hpa]
      · rw [List.find?_cons_of_neg _ hpa] at hx
        obtain ⟨y, hy1, hy2⟩ := ih hx
        refine ⟨y, ?_, hy2⟩
        rw [List.find?_cons_of_neg _ hpa]
        exact hy1

/-- `updateFirst` passes over a region with no match. -/
lemma updateFirst_append_of_neg {α : Type} (q : α → Bool) (f : α → α)
    (l1 l2 : List α) (h : ∀ x ∈ l1, q x = false) :
    updateFirst q f (l1 ++ l2) = l1 ++ updateFirst q f l2 := by
  induction l1 with
  | nil => rfl
  | cons a as ih =>
    rw [List.cons_append]
    rw [show updateFirst q f (a :: (as ++ l2)) =
      if q a then f a :: (as ++ l2) else a :: updateFirst q f (as ++ l2) from rfl]
    rw [if_neg (by simp [h a (List.mem_cons_self _ _)]),
      ih (fun x hx => h x (List.mem_cons_of_mem _ hx)), List.cons_append]

/-- The ledger grant touches only the ledger collection. -/
lemma create_reward_ledger_subs (cfg : Config) (db : DB) (u : Int)
    (ugc_id tier : Str) :
    (_create_reward_ledger cfg db u ugc_id tier).subs = db.subs := by
  unfold _create_reward_ledger
  cases hf : db.ledger.find? (ledgerKeyMatch ugc_id tier) with
  | some e => rfl
  | none => rfl

/-- The ledger grant preserves the submission-id generator. -/
lemma create_reward_ledger_nextId (cfg : Config) (db : DB) (u : Int)
    (ugc_id tier : Str) :
    (_create_reward_ledger cfg db u ugc_id tier).nextId = db.nextId := by
  unfold _create_reward_ledger
  cases hf : db.ledger.find? (ledgerKeyMatch ugc_id tier) with
  | some e => rfl
  | none => rfl

/-- After a fresh commit, the store holds a record for the draft's
(platform, post_hash) key whose id is the id the commit reported. -/
lemma find?_key_after_commit (cfg : Config) (db : DB) (u : Int) (un : Str)
    (d : Draft) (text : Str)
    (hfresh : db.subs.find? (subKeyMatch d.platform d.post_hash) = none)
    (ht : pyUpper (pyStrip text) = str "T1" ∨ pyUpper (pyStrip text) = str "T2") :
    ∃ y, (submit_got_tier cfg db u un d text).1.subs.find?
        (subKeyMatch d.platform d.post_hash) = some y ∧ y.id = db.nextId := by
  have hsub1 : ∀ tc : Str,
      (db.subs ++ [mkSubmission db u un d tc]).find?
        (subKeyMatch d.platform d.post_hash) =
      some (mkSubmission db u un d tc) := by
    intro tc
    rw [List.find?_append, hfresh]
    simp [subKeyMatch, mkSubmission]
  rcases ht with h | h
  · simp only [submit_got_tier]
    rw [h]
    rw [if_pos (Or.inl rfl), hfresh]
    simp only [eq_self_iff_true, if_true]
    rw [create_reward_ledger_subs]
    simp only []
    obtain ⟨y, hy1, hy2⟩ := find?_updateFirst_pres
      (subKeyMatch d.platform d.post_hash)
      (fun s => decide (s.id = (mkSubmission db u un d (str "T1")).id))
      (fun s => { s with status := str "validated", validated_at := some db.now })
      Submission.id (fun x => by simp [subKeyMatch]) (fun x => rfl)
      _ _ (hsub1 (str "T1"))
    exact ⟨y, hy1, hy2⟩
  · simp only [submit_got_tier]
    rw [h]
    rw [if_pos (Or.inr rfl), hfresh]
    rw [if_neg (by decide)]
    simp only []
    exact ⟨_, hsub1 (str "T2"), rfl⟩

/-- Claim C2: committing the same (platform, normalized URL) twice — same or
different users and sessions, either tier — never creates a second record:
the first commit succeeds and reports the new id, the second hits the
(platform, fingerprint) uniqueness key and reports that same id as a
duplicate, leaving the state unchanged. -/
theorem submit_dedupe (cfg : Config) (db : DB) (u1 u2 : Int) (un1 un2 : Str)
    (plat nurl : Str) (d1 d2 : Draft) (t1 t2 : Str)
    (hp1 : d1.platform = plat) (hh1 : d1.post_hash = post_hash_of plat nurl)
    (hp2 : d2.platform = plat) (hh2 : d2.post_hash = post_hash_of plat nurl)
    (hfresh : db.subs.find? (subKeyMatch plat (post_hash_of plat nurl)) = none)
    (ht1 : pyUpper (pyStrip t1) = str "T1" ∨ pyUpper (pyStrip t1) = str "T2")
    (ht2 : pyUpper (pyStrip t2) = str "T1" ∨ pyUpper (pyStrip t2) = str "T2") :
    ((submit_got_tier cfg db u1 un1 d1 t1).2 =
        TierResult.validatedT1 (encodeOid db.nextId) ∨
      (submit_got_tier cfg db u1 un1 d1 t1).2 =
        TierResult.pendingT2 (encodeOid db.nextId)) ∧
    (submit_got_tier cfg (submit_got_tier cfg db u1 un1 d1 t1).1
        u2 un2 d2 t2).2 = TierResult.duplicate (encodeOid db.nextId) ∧
    (submit_got_tier cfg (submit_got_tier cfg db u1 un1 d1 t1).1
        u2 un2 d2 t2).1 = (submit_got_tier cfg db u1 un1 d1 t1).1 := by
  have hfresh1 : db.subs.find? (subKeyMatch d1.platform d1.post_hash) = none := by
    rw [hp1, hh1]
    exact hfresh
  obtain ⟨y, hy, hyid⟩ := find?_key_after_commit cfg db u1 un1 d1 t1 hfresh1 ht1
  rw [hp1, hh1] at hy
  have hdup : ∀ r : TierResult,
      (submit_got_tier cfg (submit_got_tier cfg db u1 un1 d1 t1).1
        u2 un2 d2 t2) = ((submit_got_tier cfg db u1 un1 d1 t1).1,
          TierResult.duplicate (encodeOid db.nextId)) := by
    intro _
    generalize hG : (submit_got_tier cfg db u1 un1 d1 t1).1 = G at hy ⊢
    simp only [submit_got_tier]
    rcases ht2 with h2 | h2 <;> rw [h2]
    · rw [if_pos (Or.inl rfl), hp2, hh2]
      simp only [hy, hyid]
    · rw [if_pos (Or.inr rfl), hp2, hh2]
      simp only [hy, hyid]
  refine ⟨?_, ?_, ?_⟩
  · rcases ht1 with h | h
    · left
      simp only [submit_got_tier]
      rw [h, if_pos (Or.inl rfl), hfresh1]
      simp only [eq_self_iff_true, if_true]
    · right
      simp only [submit_got_tier]
      rw [h, if_pos (Or.inr rfl), hfresh1]
      rw [if_neg (by decide)]
  · rw [hdup TierResult.invalidTier]
  · rw [hdup TierResult.invalidTier]

/-- Witness for C2: a concrete double submission of the same TikTok post
(first as `T1` by user 7, then as ` t2 ` by user 8) — the second commit
reports a duplicate with the first commit's id and changes nothing. -/
theorem submit_dedupe_witness :
    ((submit_got_tier ⟨str "d1", str "d2", 20⟩
        { subs := [], codes := [], ledger := [], nextId := 0, now := 9 }
        7 (str "a")
        { platform := str "tt", post_url := str "https://tiktok.com/@x/video/1",
          post_hash := post_hash_of (str "tt") (str "https://tiktok.com/@x/video/1"),
          ugc_code := str "C1", caption := str "check this out!!",
          proof_sha256 := str "P" }
        (str "T1")).2 = TierResult.validatedT1 (encodeOid 0) ∨
      (submit_got_tier ⟨str "d1", str "d2", 20⟩
        { subs := [], codes := [], ledger := [], nextId := 0, now := 9 }
        7 (str "a")
        { platform := str "tt", post_url := str "https://tiktok.com/@x/video/1",
          post_hash := post_hash_of (str "tt") (str "https://tiktok.com/@x/video/1"),
          ugc_code := str "C1", caption := str "check this out!!",
          proof_sha256 := str "P" }
        (str "T1")).2 = TierResult.pendingT2 (encodeOid 0)) ∧
    (submit_got_tier ⟨str "d1", str "d2", 20⟩
      (submit_got_tier ⟨str "d1", str "d2", 20⟩
        { subs := [], codes := [], ledger := [], nextId := 0, now := 9 }
        7 (str "a")
        { platform := str "tt", post_url := str "https://tiktok.com/@x/video/1",
          post_hash := post_hash_of (str "tt") (str "https://tiktok.com/@x/video/1"),
          ugc_code := str "C1", caption := str "check this out!!",
          proof_sha256 := str "P" }
        (str "T1")).1
      8 (str "b")
      { platform := str "tt", post_url := str "https://tiktok.com/@x/video/1",
        post_hash := post_hash_of (str "tt") (str "https://tiktok.com/@x/video/1"),
        ugc_code := str "C2", caption := str "same post again",
        proof_sha256 := str "Q" }
      (str " t2 ")).2 = TierResult.duplicate (encodeOid 0) ∧
    (submit_got_tier ⟨str "d1", str "d2", 20⟩
      (submit_got_tier ⟨str "d1", str "d2", 20⟩
        { subs := [], codes := [], ledger := [], nextId := 0, now := 9 }
        7 (str "a")
        { platform := str "tt", post_url := str "https://tiktok.com/@x/video/1",
          post_hash := post_hash_of (str "tt") (str "https://tiktok.com/@x/video/1"),
          ugc_code := str "C1", caption := str "check this out!!",
          proof_sha256 := str "P" }
        (str "T1")).1
      8 (str "b")
      { platform := str "tt", post_url := str "https://tiktok.com/@x/video/1",
        post_hash := post_hash_of (str "tt") (str "https://tiktok.com/@x/video/1"),
        ugc_code := str "C2", caption := str "same post again",
        proof_sha256 := str "Q" }
      (str " t2 ")).1 =
    (submit_got_tier ⟨str "d1", str "d2", 20⟩
      { subs := [], codes := [], ledger := [], nextId := 0, now := 9 }
      7 (str "a")
      { platform := str "tt", post_url := str "https://tiktok.com/@x/video/1",
        post_hash := post_hash_of (str "tt") (str "https://tiktok.com/@x/video/1"),
        ugc_code := str "C1", caption := str "check this out!!",
        proof_sha256 := str "P" }
      (str "T1")).1 :=
  submit_dedupe ⟨str "d1", str "d2", 20⟩
    { subs := [], codes := [], ledger := [], nextId := 0, now := 9 }
    7 8 (str "a") (str "b") (str "tt") (str "https://tiktok.com/@x/video/1")
    { platform := str "tt", post_url := str "https://tiktok.com/@x/video/1",
      post_hash := post_hash_of (str "tt") (str "https://tiktok.com/@x/video/1"),
      ugc_code := str "C1", caption := str "check this out!!",
      proof_sha256 := str "P" }
    { platform := str "tt", post_url := str "https://tiktok.com/@x/video/1",
      post_hash := post_hash_of (str "tt") (str "https://tiktok.com/@x/video/1"),
      ugc_code := str "C2", caption := str "same post again",
      proof_sha256 := str "Q" }
    (str "T1") (str " t2 ")
    rfl rfl rfl rfl (by decide) (by decide) (by decide)

/-- A grant with no existing entry for the key appends exactly the upsert
document. -/
lemma create_reward_ledger_of_none (cfg : Config) (db : DB) (u : Int)
    (ugc_id tier : Str)
    (h : db.ledger.find? (ledgerKeyMatch ugc_id tier) = none) :
    _create_reward_ledger cfg db u ugc_id tier =
      { db with ledger := db.ledger ++
          [⟨u, ugc_id, tier, if tier = str "T1" then 1 else 5,
            if tier = str "T1" then cfg.t1_drop_id else cfg.t2_drop_id,
            str "pending_claim", db.now, db.now, none, none⟩] } := by
  unfold _create_reward_ledger
  rw [h]

/-- `updateFirst` fires at a matching head. -/
lemma updateFirst_cons_pos {α : Type} (q : α → Bool) (f : α → α) (x : α)
    (xs : List α) (h : q x = true) :
    updateFirst q f (x :: xs) = f x :: xs := by
  unfold updateFirst
  rw [if_pos h]

/-- Components of the fresh-commit state for the T2 tier: the record is
appended as `submitted`, the ledger is untouched, and generator and clock
advance as modelled. -/
lemma submit_T2_state (cfg : Config) (db : DB) (u : Int) (un : Str) (d : Draft)
    (hfresh : db.subs.find? (subKeyMatch d.platform d.post_hash) = none) :
    (submit_got_tier cfg db u un d (str "T2")).2 =
      TierResult.pendingT2 (encodeOid db.nextId) ∧
    (submit_got_tier cfg db u un d (str "T2")).1.subs =
      db.subs ++ [mkSubmission db u un d (str "T2")] ∧
    (submit_got_tier cfg db u un d (str "T2")).1.ledger = db.ledger ∧
    (submit_got_tier cfg db u un d (str "T2")).1.now = db.now := by
  have hst : pyUpper (pyStrip (str "T2")) = str "T2" := by decide
  simp only [submit_got_tier]
  rw [hst, if_pos (Or.inr rfl), hfresh, if_neg (by decide)]
  exact ⟨rfl, rfl, rfl, rfl⟩

/-- The id of the commit-time submission document is the generator value. -/
lemma mkSubmission_id (db : DB) (u : Int) (un : Str) (d : Draft) (t : Str) :
    (mkSubmission db u un d t).id = db.nextId := rfl

/-- Ledger shape after a grant on a state whose ledger is `L` with no entry
for the key. -/
lemma create_reward_ledger_ledger_eq (cfg : Config) (db : DB) (u : Int)
    (ugc_id tier : Str) (L : List LedgerEntry) (hL : db.ledger = L)
    (h : L.find? (ledgerKeyMatch ugc_id tier) = none) :
    (_create_reward_ledger cfg db u ugc_id tier).ledger =
      L ++ [⟨u, ugc_id, tier, if tier = str "T1" then 1 else 5,
        if tier = str "T1" then cfg.t1_drop_id else cfg.t2_drop_id,
        str "pending_claim", db.now, db.now, none, none⟩] := by
  subst hL
  unfold _create_reward_ledger
  rw [h]

/-- Components of the fresh-commit state for the T1 tier: the record is
appended already validated and the T1 ledger entry of amount 1 is created. -/
lemma submit_T1_state (cfg : Config) (db : DB) (u : Int) (un : Str) (d : Draft)
    (hfresh : db.subs.find? (subKeyMatch d.platform d.post_hash) = none)
    (hid : ∀ s ∈ db.subs, s.id ≠ db.nextId)
    (hl1 : db.ledger.find? (ledgerKeyMatch (encodeOid db.nextId) (str "T1")) = none) :
    (submit_got_tier cfg db u un d (str "T1")).2 =
      TierResult.validatedT1 (encodeOid db.nextId) ∧
    (submit_got_tier cfg db u un d (str "T1")).1.subs =
      db.subs ++ [{ mkSubmission db u un d (str "T1") with
        status := str "validated", validated_at := some db.now }] ∧
    (submit_got_tier cfg db u un d (str "T1")).1.ledger =
      db.ledger ++ [⟨u, encodeOid db.nextId, str "T1", 1, cfg.t1_drop_id,
        str "pending_claim", db.now, db.now, none, none⟩] := by
  have hst : pyUpper (pyStrip (str "T1")) = str "T1" := by decide
  refine ⟨?_, ?_, ?_⟩
  · simp only [submit_got_tier]
    rw [hst, if_pos (Or.inl rfl), hfresh, if_pos rfl]
  · simp only [submit_got_tier]
    rw [hst, if_pos (Or.inl rfl), hfresh, if_pos rfl]
    rw [create_reward_ledger_subs]
    simp only [mkSubmission_id]
    rw [updateFirst_append_of_neg _ _ _ _ (fun x hx => by simp [hid x hx]),
      updateFirst_cons_pos _ _ _ _ (by simp [mkSubmission_id])]
    rfl
  · simp only [submit_got_tier]
    rw [hst, if_pos (Or.inl rfl), hfresh, if_pos rfl]
    refine Eq.trans (create_reward_ledger_ledger_eq cfg _ u (encodeOid db.nextId)
      (str "T1") db.ledger rfl hl1) ?_
    rw [if_pos rfl, if_pos rfl]

/-- Attaching the metrics photo to the freshly committed T2 submission:
the record gains the metrics fingerprint and `validated` status, and the
amount-5 T2 ledger entry keyed on the supplied id string is created. -/
lemma metrics_after_T2_state (cfg : Config) (db : DB) (u : Int) (un : Str)
    (d : Draft) (ms ph : Str)
    (hfresh : db.subs.find? (subKeyMatch d.platform d.post_hash) = none)
    (hid : ∀ s ∈ db.subs, s.id ≠ db.nextId)
    (hms : _oid ms = Except.ok db.nextId)
    (hl2 : db.ledger.find? (ledgerKeyMatch ms (str "T2")) = none) :
    ∃ db2 : DB,
      metrics_got_proof cfg (submit_got_tier cfg db u un d (str "T2")).1 u
        (some ms) (some ph) = Except.ok (db2, MetricsView.validated ms) ∧
      db2.subs = db.subs ++ [{ mkSubmission db u un d (str "T2") with
        metrics_proof_sha256 := some (sha256_bytes ph),
        status := str "validated", validated_at := some db.now,
        updated_at := db.now }] ∧
      db2.ledger = db.ledger ++ [⟨u, ms, str "T2", 5, cfg.t2_drop_id,
        str "pending_claim", db.now, db.now, none, none⟩] := by
  obtain ⟨hr2, hsubs2, hled2, hnow2⟩ := submit_T2_state cfg db u un d hfresh
  generalize hC : (submit_got_tier cfg db u un d (str "T2")).1 = C
    at hsubs2 hled2 hnow2 ⊢
  cases C with
  | mk Cs Cc Cl Cn Cnow =>
  dsimp only at hsubs2 hled2 hnow2
  subst hsubs2
  subst hled2
  subst hnow2
  have hfind : ((db.subs ++ [mkSubmission db u un d (str "T2")]).find?
      (fun s => decide (s.id = db.nextId ∧ s.user_id = u))) =
      some (mkSubmission db u un d (str "T2")) := by
    rw [List.find?_append]
    have hnone : db.subs.find?
        (fun s => decide (s.id = db.nextId ∧ s.user_id = u)) = none := by
      rw [List.find?_eq_none]
      intro s hs hp
      simp only [decide_eq_true_eq] at hp
      exact hid s hs hp.1
    rw [hnone]
    simp [mkSubmission]
  have heq : metrics_got_proof cfg
      ⟨db.subs ++ [mkSubmission db u un d (str "T2")], Cc, db.ledger, Cn, db.now⟩
      u (some ms) (some ph) =
      Except.ok (_create_reward_ledger cfg
        ⟨updateFirst (fun s => decide (s.id = db.nextId))
          (fun s => { s with
            metrics_proof_sha256 := some (sha256_bytes ph)
            status := str "validated"
            validated_at := some db.now
            updated_at := db.now })
          (db.subs ++ [mkSubmission db u un d (str "T2")]),
          Cc, db.ledger, Cn, db.now⟩
        u ms (str "T2"), MetricsView.validated ms) := by
    simp only [metrics_got_proof, hms, hfind]
  refine ⟨_, heq, ?_, ?_⟩
  · rw [create_reward_ledger_subs]
    dsimp only
    rw [updateFirst_append_of_neg _ _ _ _ (fun x hx => by simp [hid x hx]),
      updateFirst_cons_pos _ _ _ _ (by simp [mkSubmission_id])]
  · refine Eq.trans (create_reward_ledger_ledger_eq cfg _ u ms (str "T2")
      db.ledger rfl hl2) ?_
    rw [if_neg (by decide), if_neg (by decide)]

/-- Claim C3: a T1 commit immediately marks the record `validated`, stamps
the validation timestamp and creates the T1 ledger entry of amount 1 with no
metrics step; a T2 commit leaves the record `submitted` with no ledger entry
until a metrics photo is attached, at which point the metrics fingerprint is
set, the record becomes `validated`, and a T2 ledger entry of amount 5 is
created. -/
theorem tier_split (cfg : Config) (db : DB) (u : Int) (un : Str) (d : Draft)
    (hfresh : db.subs.find? (subKeyMatch d.platform d.post_hash) = none)
    (hid : ∀ s ∈ db.subs, s.id ≠ db.nextId) :
    (db.ledger.find? (ledgerKeyMatch (encodeOid db.nextId) (str "T1")) = none →
      (submit_got_tier cfg db u un d (str "T1")).2 =
        TierResult.validatedT1 (encodeOid db.nextId) ∧
      (submit_got_tier cfg db u un d (str "T1")).1.subs =
        db.subs ++ [{ mkSubmission db u un d (str "T1") with
          status := str "validated", validated_at := some db.now }] ∧
      (submit_got_tier cfg db u un d (str "T1")).1.ledger =
        db.ledger ++ [⟨u, encodeOid db.nextId, str "T1", 1, cfg.t1_drop_id,
          str "pending_claim", db.now, db.now, none, none⟩]) ∧
    ((submit_got_tier cfg db u un d (str "T2")).2 =
        TierResult.pendingT2 (encodeOid db.nextId) ∧
      (submit_got_tier cfg db u un d (str "T2")).1.subs =
        db.subs ++ [mkSubmission db u un d (str "T2")] ∧
      (submit_got_tier cfg db u un d (str "T2")).1.ledger = db.ledger) ∧
    (∀ ms ph : Str, _oid ms = Except.ok db.nextId →
      db.ledger.find? (ledgerKeyMatch ms (str "T2")) = none →
      ∃ db2 : DB,
        metrics_got_proof cfg (submit_got_tier cfg db u un d (str "T2")).1 u
          (some ms) (some ph) = Except.ok (db2, MetricsView.validated ms) ∧
        db2.subs = db.subs ++ [{ mkSubmission db u un d (str "T2") with
          metrics_proof_sha256 := some (sha256_bytes ph),
          status := str "validated", validated_at := some db.now,
          updated_at := db.now }] ∧
        db2.ledger = db.ledger ++ [⟨u, ms, str "T2", 5, cfg.t2_drop_id,
          str "pending_claim", db.now, db.now, none, none⟩]) := by
  refine ⟨?_, ?_, ?_⟩
  · intro hl1
    exact submit_T1_state cfg db u un d hfresh hid hl1
  · obtain ⟨h1, h2, h3, _⟩ := submit_T2_state cfg db u un d hfresh
    exact ⟨h1, h2, h3⟩
  · intro ms ph hms hl2
    exact metrics_after_T2_state cfg db u un d ms ph hfresh hid hms hl2

/-- Witness for C3 at a concrete empty store: a T1 commit validates record 0
and grants amount 1; a T2 commit leaves the record submitted with no grant,
and attaching a metrics photo validates it with a T2 grant of amount 5. -/
theorem tier_split_witness :
    (submit_got_tier ⟨str "p1", str "p2", 20⟩
      { subs := [], codes := [], ledger := [], nextId := 0, now := 44 }
      7 (str "u")
      { platform := str "tt", post_url := str "U", post_hash := str "H",
        ugc_code := str "C", caption := str "caption", proof_sha256 := str "P" }
      (str "T1")).2 = TierResult.validatedT1 (encodeOid 0) ∧
    (submit_got_tier ⟨str "p1", str "p2", 20⟩
      { subs := [], codes := [], ledger := [], nextId := 0, now := 44 }
      7 (str "u")
      { platform := str "tt", post_url := str "U", post_hash := str "H",
        ugc_code := str "C", caption := str "caption", proof_sha256 := str "P" }
      (str "T1")).1.ledger =
      [⟨7, encodeOid 0, str "T1", 1, str "p1", str "pending_claim",
        44, 44, none, none⟩] ∧
    (submit_got_tier ⟨str "p1", str "p2", 20⟩
      { subs := [], codes := [], ledger := [], nextId := 0, now := 44 }
      7 (str "u")
      { platform := str "tt", post_url := str "U", post_hash := str "H",
        ugc_code := str "C", caption := str "caption", proof_sha256 := str "P" }
      (str "T2")).1.ledger = [] ∧
    (metrics_got_proof ⟨str "p1", str "p2", 20⟩
      (submit_got_tier ⟨str "p1", str "p2", 20⟩
        { subs := [], codes := [], ledger := [], nextId := 0, now := 44 }
        7 (str "u")
        { platform := str "tt", post_url := str "U", post_hash := str "H",
          ugc_code := str "C", caption := str "caption", proof_sha256 := str "P" }
        (str "T2")).1
      7 (some (encodeOid 0)) (some (str "photo"))).map
        (fun p => (p.2, p.1.ledger)) =
      Except.ok (MetricsView.validated (encodeOid 0),
        [⟨7, encodeOid 0, str "T2", 5, str "p2", str "pending_claim",
          44, 44, none, none⟩]) := by
  obtain ⟨h1, h2, h3⟩ := tier_split ⟨str "p1", str "p2", 20⟩
    { subs := [], codes := [], ledger := [], nextId := 0, now := 44 }
    7 (str "u")
    { platform := str "tt", post_url := str "U", post_hash := str "H",
      ugc_code := str "C", caption := str "caption", proof_sha256 := str "P" }
    (by decide) (by decide)
  obtain ⟨h11, h12, h13⟩ := h1 (by decide)
  obtain ⟨h21, h22, h23⟩ := h2
  obtain ⟨db2, hm, hs, hl⟩ := h3 (encodeOid 0) (str "photo") (by rfl) (by decide)
  refine ⟨h11, ?_, h23, ?_⟩
  · rw [h13]
    rfl
  · rw [hm, Except.map, hl]
    rfl

/-- A grant is a whole-state no-op when an entry for the key exists. -/
lemma create_reward_ledger_found (cfg : Config) (db : DB) (u : Int)
    (ugc_id tier : Str) (e : LedgerEntry)
    (h : db.ledger.find? (ledgerKeyMatch ugc_id tier) = some e) :
    _create_reward_ledger cfg db u ugc_id tier = db := by
  unfold _create_reward_ledger
  rw [h]

/-- Ledger shape after a grant on a state whose ledger is `L` holding an
entry for the key: unchanged. -/
lemma create_reward_ledger_ledger_found (cfg : Config) (db : DB) (u : Int)
    (ugc_id tier : Str) (L : List LedgerEntry) (e : LedgerEntry)
    (hL : db.ledger = L) (h : L.find? (ledgerKeyMatch ugc_id tier) = some e) :
    (_create_reward_ledger cfg db u ugc_id tier).ledger = L := by
  subst hL
  unfold _create_reward_ledger
  rw [h]

/-- When the only element matching `q` is `x`, `updateFirst` rewrites `x`. -/
lemma mem_updateFirst_of_uniq {α : Type} (q : α → Bool) (f : α → α)
    (l : List α) (x : α) (hx : x ∈ l) (hq : q x = true)
    (huniq : ∀ y ∈ l, q y = true → y = x) :
    f x ∈ updateFirst q f l := by
  induction l with
  | nil => cases hx
  | cons a as ih =>
    by_cases hqa : q a
    · rw [updateFirst_cons_pos _ _ _ _ hqa]
      rw [huniq a (List.mem_cons_self _ _) hqa]
      exact List.mem_cons_self _ _
    · rw [show updateFirst q f (a :: as) =
          if q a then f a :: as else a :: updateFirst q f as from rfl,
        if_neg hqa]
      rcases List.mem_cons.mp hx with rfl | hxs
      · exact absurd hq hqa
      · exact List.mem_cons_of_mem _
          (ih hxs (fun y hy h2 => huniq y (List.mem_cons_of_mem _ hy) h2))

/-- Claim C9: the metrics-proof step's only precondition on the target record
is ownership — neither the claimed tier nor the current status is checked —
so for any owned submission (including a T1-validated one) a metrics photo
sets the metrics fingerprint, (re)marks the record `validated` with a fresh
timestamp, and grants a T2 ledger entry; a submission already holding a T1
entry thereby accumulates both a T1 and a T2 entry. -/
theorem metrics_no_tier_guard (cfg : Config) (db : DB) (u : Int) (ms ph : Str)
    (sub : Submission) (i : Nat)
    (hms : _oid ms = Except.ok i)
    (hmem : sub ∈ db.subs) (hsid : sub.id = i) (hown : sub.user_id = u)
    (huniq : ∀ s ∈ db.subs, s.id = i → s = sub) :
    ∃ db2 : DB,
      metrics_got_proof cfg db u (some ms) (some ph) =
        Except.ok (db2, MetricsView.validated ms) ∧
      ({ sub with
          metrics_proof_sha256 := some (sha256_bytes ph)
          status := str "validated"
          validated_at := some db.now
          updated_at := db.now } : Submission) ∈ db2.subs ∧
      (∀ e ∈ db.ledger, e ∈ db2.ledger) ∧
      (db.ledger.find? (ledgerKeyMatch ms (str "T2")) = none →
        (⟨u, ms, str "T2", 5, cfg.t2_drop_id, str "pending_claim",
          db.now, db.now, none, none⟩ : LedgerEntry) ∈ db2.ledger) ∧
      ((∃ e ∈ db.ledger, e.ugc_id = ms ∧ e.tier = str "T1") →
        db.ledger.find? (ledgerKeyMatch ms (str "T2")) = none →
        (∃ e ∈ db2.ledger, e.ugc_id = ms ∧ e.tier = str "T1") ∧
        (∃ e ∈ db2.ledger, e.ugc_id = ms ∧ e.tier = str "T2" ∧
          e.amount = 5)) := by
  have hfound : db.subs.find? (fun s => decide (s.id = i ∧ s.user_id = u)) =
      some sub := by
    cases hz : db.subs.find? (fun s => decide (s.id = i ∧ s.user_id = u)) with
    | none =>
      exfalso
      rw [List.find?_eq_none] at hz
      exact hz sub hmem (by simp [hsid, hown])
    | some z =>
      have hp := List.find?_some hz
      simp only [decide_eq_true_eq] at hp
      have hzmem := List.mem_of_find?_eq_some hz
      rw [huniq z hzmem hp.1]
  simp only [metrics_got_proof, hms, hfound]
  refine ⟨_, rfl, ?_, ?_, ?_, ?_⟩
  · rw [create_reward_ledger_subs]
    dsimp only
    exact mem_updateFirst_of_uniq _ _ _ sub hmem (by simp [hsid])
      (fun y hy h2 => huniq y hy (by simpa using h2))
  · intro e he
    cases hf : db.ledger.find? (ledgerKeyMatch ms (str "T2")) with
    | some e2 =>
      rw [create_reward_ledger_ledger_found cfg
        ⟨updateFirst (fun s => decide (s.id = i))
          (fun s => { s with
            metrics_proof_sha256 := some (sha256_bytes ph)
            status := str "validated"
            validated_at := some db.now
            updated_at := db.now }) db.subs,
          db.codes, db.ledger, db.nextId, db.now⟩
        u ms (str "T2") db.ledger e2 rfl hf]
      exact he
    | none =>
      have hl := create_reward_ledger_ledger_eq cfg
        ⟨updateFirst (fun s => decide (s.id = i))
          (fun s => { s with
            metrics_proof_sha256 := some (sha256_bytes ph)
            status := str "validated"
            validated_at := some db.now
            updated_at := db.now }) db.subs,
          db.codes, db.ledger, db.nextId, db.now⟩
        u ms (str "T2") db.ledger rfl hf
      rw [hl]
      exact List.mem_append_left _ he
  · intro hf
    have hl := create_reward_ledger_ledger_eq cfg
      ⟨updateFirst (fun s => decide (s.id = i))
        (fun s => { s with
          metrics_proof_sha256 := some (sha256_bytes ph)
          status := str "validated"
          validated_at := some db.now
          updated_at := db.now }) db.subs,
        db.codes, db.ledger, db.nextId, db.now⟩
      u ms (str "T2") db.ledger rfl hf
    rw [hl, if_neg (by decide), if_neg (by decide)]
    exact List.mem_append_right _ (List.mem_cons_self _ _)
  · intro hT1 hf
    obtain ⟨e1, he1, he1u, he1t⟩ := hT1
    cases hfx : db.ledger.find? (ledgerKeyMatch ms (str "T2")) with
    | some e2 => exact absurd hf (by rw [hfx]; intro hc; cases hc)
    | none =>
      have hl := create_reward_ledger_ledger_eq cfg
        ⟨updateFirst (fun s => decide (s.id = i))
          (fun s => { s with
            metrics_proof_sha256 := some (sha256_bytes ph)
            status := str "validated"
            validated_at := some db.now
            updated_at := db.now }) db.subs,
          db.codes, db.ledger, db.nextId, db.now⟩
        u ms (str "T2") db.ledger rfl hf
      constructor
      · exact ⟨e1, by rw [hl]; exact List.mem_append_left _ he1, he1u, he1t⟩
      · refine ⟨⟨u, ms, str "T2", if (str "T2") = str "T1" then 1 else 5,
          if (str "T2") = str "T1" then cfg.t1_drop_id else cfg.t2_drop_id,
          str "pending_claim", db.now, db.now, none, none⟩, ?_, rfl, rfl, ?_⟩
        · rw [hl]
          exact List.mem_append_right _ (List.mem_cons_self _ _)
        · rw [if_neg (by decide)]

/-- Witness for C9: a store whose only submission is already claimed and
validated as T1 with its T1 ledger entry — attaching a metrics photo
succeeds anyway, and afterwards the ledger holds both the T1 entry and a
fresh T2 entry of amount 5 for the same submission id. -/
theorem metrics_no_tier_guard_witness :
    (⟨7, encodeOid 0, str "T1", 1, str "p1", str "pending_claim",
        40, 40, none, none⟩ : LedgerEntry) ∈
      (((metrics_got_proof ⟨str "p1", str "p2", 20⟩
        { subs := [{ id := 0, user_id := 7, usernameLower := str "u",
                     platform := str "tt", post_url := str "U",
                     post_hash := str "H", ugc_code := str "C",
                     caption := str "c", proof_sha256 := str "P",
                     tier_claimed := str "T1", status := str "validated",
                     created_at := 40, updated_at := 40,
                     metrics_proof_sha256 := none, validated_at := some 40 }]
          codes := []
          ledger := [⟨7, encodeOid 0, str "T1", 1, str "p1",
            str "pending_claim", 40, 40, none, none⟩]
          nextId := 1, now := 44 }
        7 (some (encodeOid 0)) (some (str "m"))).toOption.map
          (fun p => p.1.ledger)).getD []) ∧
    (⟨7, encodeOid 0, str "T2", 5, str "p2", str "pending_claim",
        44, 44, none, none⟩ : LedgerEntry) ∈
      (((metrics_got_proof ⟨str "p1", str "p2", 20⟩
        { subs := [{ id := 0, user_id := 7, usernameLower := str "u",
                     platform := str "tt", post_url := str "U",
                     post_hash := str "H", ugc_code := str "C",
                     caption := str "c", proof_sha256 := str "P",
                     tier_claimed := str "T1", status := str "validated",
                     created_at := 40, updated_at := 40,
                     metrics_proof_sha256 := none, validated_at := some 40 }]
          codes := []
          ledger := [⟨7, encodeOid 0, str "T1", 1, str "p1",
            str "pending_claim", 40, 40, none, none⟩]
          nextId := 1, now := 44 }
        7 (some (encodeOid 0)) (some (str "m"))).toOption.map
          (fun p => p.1.ledger)).getD []) := by
  obtain ⟨db2, hm, hsub, hpres, hT2, hboth⟩ :=
    metrics_no_tier_guard ⟨str "p1", str "p2", 20⟩
      { subs := [{ id := 0, user_id := 7, usernameLower := str "u",
                   platform := str "tt", post_url := str "U",
                   post_hash := str "H", ugc_code := str "C",
                   caption := str "c", proof_sha256 := str "P",
                   tier_claimed := str "T1", status := str "validated",
                   created_at := 40, updated_at := 40,
                   metrics_proof_sha256 := none, validated_at := some 40 }]
        codes := []
        ledger := [⟨7, encodeOid 0, str "T1", 1, str "p1",
          str "pending_claim", 40, 40, none, none⟩]
        nextId := 1, now := 44 }
      7 (encodeOid 0) (str "m")
      { id := 0, user_id := 7, usernameLower := str "u",
        platform := str "tt", post_url := str "U",
        post_hash := str "H", ugc_code := str "C",
        caption := str "c", proof_sha256 := str "P",
        tier_claimed := str "T1", status := str "validated",
        created_at := 40, updated_at := 40,
        metrics_proof_sha256 := none, validated_at := some 40 }
      0 (by rfl) (by decide) (by decide) (by decide) (by decide)
  rw [hm]
  simp only [Except.toOption, Option.map, Option.getD]
  constructor
  · exact hpres _ (List.mem_cons_self _ _)
  · exact hT2 (by decide)

/-- Claim C7: for a valid submission id owned by another user, both the
status lookup and the metrics-proof lookup answer not-found — the metrics
flow performs no update and grants nothing (the state is returned
unchanged) — exactly as if the id did not exist. -/
theorem ownership_isolation (cfg : Config) (db : DB) (u : Int) (sId : Str)
    (i : Nat) (sub : Submission) (ph : Str)
    (hoid : _oid (pyStrip sId) = Except.ok i)
    (hmem : sub ∈ db.subs) (hsid : sub.id = i)
    (hallown : ∀ s ∈ db.subs, s.id = i → s.user_id = sub.user_id)
    (hne : u ≠ sub.user_id) :
    status_cmd db u true [sId] = Except.ok StatusView.notFound ∧
    metrics_got_proof cfg db u (some (pyStrip sId)) (some ph) =
      Except.ok (db, MetricsView.notFound) := by
  have hnone : db.subs.find?
      (fun s => decide (s.id = i) && decide (s.user_id = u)) = none := by
    rw [List.find?_eq_none]
    intro s hs hp
    simp only [Bool.and_eq_true, decide_eq_true_eq] at hp
    have h2 := hallown s hs hp.1
    rw [hp.2] at h2
    exact hne h2
  constructor
  · simp [status_cmd, hoid, hnone]
  · simp [metrics_got_proof, hoid, hnone]

/-- Witness for C7: submission 0 belongs to user 7; user 8's status and
metrics lookups by its valid id both answer not-found and leave the state
unchanged. -/
theorem ownership_isolation_witness :
    status_cmd
      { subs := [{ id := 0, user_id := 7, usernameLower := str "u",
                   platform := str "tt", post_url := str "U",
                   post_hash := str "H", ugc_code := str "C",
                   caption := str "c", proof_sha256 := str "P",
                   tier_claimed := str "T2", status := str "submitted",
                   created_at := 40, updated_at := 40,
                   metrics_proof_sha256 := none, validated_at := none }]
        codes := [], ledger := [], nextId := 1, now := 44 }
      8 true [encodeOid 0] = Except.ok StatusView.notFound ∧
    metrics_got_proof ⟨str "p1", str "p2", 20⟩
      { subs := [{ id := 0, user_id := 7, usernameLower := str "u",
                   platform := str "tt", post_url := str "U",
                   post_hash := str "H", ugc_code := str "C",
                   caption := str "c", proof_sha256 := str "P",
                   tier_claimed := str "T2", status := str "submitted",
                   created_at := 40, updated_at := 40,
                   metrics_proof_sha256 := none, validated_at := none }]
        codes := [], ledger := [], nextId := 1, now := 44 }
      8 (some (pyStrip (encodeOid 0))) (some (str "m")) =
      Except.ok
        ({ subs := [{ id := 0, user_id := 7, usernameLower := str "u",
                      platform := str "tt", post_url := str "U",
                      post_hash := str "H", ugc_code := str "C",
                      caption := str "c", proof_sha256 := str "P",
                      tier_claimed := str "T2", status := str "submitted",
                      created_at := 40, updated_at := 40,
                      metrics_proof_sha256 := none, validated_at := none }]
           codes := [], ledger := [], nextId := 1, now := 44 },
         MetricsView.notFound) :=
  ownership_isolation ⟨str "p1", str "p2", 20⟩
    { subs := [{ id := 0, user_id := 7, usernameLower := str "u",
                 platform := str "tt", post_url := str "U",
                 post_hash := str "H", ugc_code := str "C",
                 caption := str "c", proof_sha256 := str "P",
                 tier_claimed := str "T2", status := str "submitted",
                 created_at := 40, updated_at := 40,
                 metrics_proof_sha256 := none, validated_at := none }]
      codes := [], ledger := [], nextId := 1, now := 44 }
    8 (encodeOid 0) 0
    { id := 0, user_id := 7, usernameLower := str "u",
      platform := str "tt", post_url := str "U",
      post_hash := str "H", ugc_code := str "C",
      caption := str "c", proof_sha256 := str "P",
      tier_claimed := str "T2", status := str "submitted",
      created_at := 40, updated_at := 40,
      metrics_proof_sha256 := none, validated_at := none }
    (str "m") (by rfl) (by decide) (by decide) (by decide) (by decide)

/-- Claim C10 documents a divergence: the spec requires every user-facing
error — including a malformed submission-id argument — to be handled inside
the handlers and turned into reply text, but `_oid` calls `bson.ObjectId`
without catching `InvalidId`, so `status <malformed>` and the metrics-proof
step raise out of the handler.  This theorem evaluates the model at the
failing input `zzz`: the id-collection step accepts it, and both lookups
then propagate the parse exception (`Except.error`) instead of producing a
reply. -/
theorem malformed_id_raises :
    status_cmd { subs := [], codes := [], ledger := [], nextId := 0, now := 0 }
      1 true [str "zzz"] = Except.error BsonError.invalidObjectId ∧
    metrics_cmd true [str "zzz"] = MetricsCmd.askPhoto (str "zzz") ∧
    metrics_got_proof ⟨str "p1", str "p2", 20⟩
      { subs := [], codes := [], ledger := [], nextId := 0, now := 0 }
      1 (some (str "zzz")) (some (str "m")) =
      Except.error BsonError.invalidObjectId :=
  ⟨rfl, rfl, rfl⟩
